import Mathlib

/-!
Verification of the athletics data-warehouse reconciliation and scoring
engine (python sources 02_transform.py, 02b_load_reconciled.py,
04_load_facts.py, config.py).

Strings are modelled as lists of Unicode code points (List Nat), and the
python string primitives (upper, lower, strip, split, join, replace,
endswith, substring search) are given as structural functions over them.
Case mapping is modelled for the ASCII range, which is the range exercised
by every table and constant in the sources.  Python floats are modelled as
exact rationals; the float() string parser is modelled for the decimal and
exponent forms, without the inf/nan/underscore forms that never occur in
the data.  Rational constants that feed decidable branch conditions are
written with mkRat so that concrete runs reduce; mkRat n d is the literal
n/d from the source.
-/

/-- Code-point string model. -/
abbrev Str := List Nat

/-- Encode a Lean string literal as a code-point list. -/
def enc (s : String) : Str := s.data.map Char.toNat

/-- Python whitespace test (space, tab, newline, vertical tab, form feed,
carriage return), as used by str.strip and str.split. -/
def isWsB (n : Nat) : Bool := n == 32 || n == 9 || n == 10 || n == 11 || n == 12 || n == 13

/-- ASCII uppercase mapping of a single code point (str.upper). -/
def upC (n : Nat) : Nat := if 97 ≤ n ∧ n ≤ 122 then n - 32 else n

/-- ASCII lowercase mapping of a single code point (str.lower). -/
def lowC (n : Nat) : Nat := if 65 ≤ n ∧ n ≤ 90 then n + 32 else n

/-- Model of str.upper. -/
def upS (l : Str) : Str := l.map upC

/-- Model of str.lower. -/
def lowS (l : Str) : Str := l.map lowC

/-- Model of str.strip with no arguments. -/
def stripWs (l : Str) : Str :=
  ((l.dropWhile isWsB).reverse.dropWhile isWsB).reverse

/-- Model of str.split with no arguments: maximal runs of
non-whitespace characters, leading/trailing/repeated separators dropped. -/
def words : Str → List Str
  | [] => []
  | [c] => if isWsB c then [] else [[c]]
  | c :: d :: cs =>
    if isWsB c then words (d :: cs)
    else
      match words (d :: cs) with
      | [] => [[c]]
      | w :: rest => if isWsB d then [c] :: w :: rest else (c :: w) :: rest

/-- Join a list of words with single spaces (the join in
the python expression joining str.split output with a space). -/
def unwords : List Str → Str
  | [] => []
  | [w] => w
  | w :: ws => w ++ 32 :: unwords ws

/-- Model of joining str.split output with a single space: collapses
internal whitespace runs and trims the ends. -/
def collapseWs (l : Str) : Str := unwords (words l)

/-- Boolean prefix test on code-point lists. -/
def isPrefixB : Str → Str → Bool
  | [], _ => true
  | _ :: _, [] => false
  | a :: as, b :: bs => a == b && isPrefixB as bs

/-- Model of the python substring operator: containsSub pat text is true
when pat occurs contiguously inside text. -/
def containsSub (pat : Str) : Str → Bool
  | [] => pat.isEmpty
  | c :: cs => isPrefixB pat (c :: cs) || containsSub pat cs

/-- Boolean suffix test on code-point lists (str.endswith). -/
def isSuffixB (pat l : Str) : Bool := isPrefixB pat.reverse l.reverse

/-- Remove every occurrence of a single code point
(str.replace of a one-character string by the empty string). -/
def removeChar (c : Nat) (l : Str) : Str := l.filter (fun d => d ≠ c)

/-- Decimal digit test. -/
def isDigitB (n : Nat) : Bool := 48 ≤ n && n ≤ 57

/-- ASCII uppercase letter test. -/
def isUpperB (n : Nat) : Bool := 65 ≤ n && n ≤ 90

/-- ASCII letter test. -/
def isAlphaB (n : Nat) : Bool := (65 ≤ n && n ≤ 90) || (97 ≤ n && n ≤ 122)

/-- Numeric value of a digit run (most significant first). -/
def digitsToNat (l : Str) : Nat := l.foldl (fun a c => a * 10 + (c - 48)) 0

/-- Mantissa of a python float literal: an optional integer part, an
optional dot, and an optional fraction part, with at least one digit.
Returns the combined digit value and the number of fraction digits. -/
def parseMant (s : Str) : Option (Nat × Nat) :=
  let ip := s.takeWhile isDigitB
  let rest := s.dropWhile isDigitB
  match rest with
  | [] => if ip.isEmpty then none else some (digitsToNat ip, 0)
  | 46 :: fp =>
    if fp.all isDigitB && (!ip.isEmpty || !fp.isEmpty) then
      some (digitsToNat (ip ++ fp), fp.length)
    else none
  | _ => none

/-- Exponent of a python float literal: optional sign then digits. -/
def parseExpPart (s : Str) : Option Int :=
  match s with
  | 43 :: r => if r ≠ [] ∧ r.all isDigitB then some (digitsToNat r) else none
  | 45 :: r => if r ≠ [] ∧ r.all isDigitB then some (-(digitsToNat r : Int)) else none
  | r => if r ≠ [] ∧ r.all isDigitB then some (digitsToNat r) else none

/-- Split a string at the first e or E, if any. -/
def splitAtE : Str → Str × Option Str
  | [] => ([], none)
  | c :: cs =>
    if c = 101 ∨ c = 69 then ([], some cs)
    else
      let r := splitAtE cs
      (c :: r.1, r.2)

/-- Model of the python float() string conversion restricted to decimal
and exponent literals: surrounding whitespace is stripped, an optional
sign, a mantissa and an optional exponent are read; any other shape
raises ValueError, modelled as none.  The value is the exact rational
denoted by the literal. -/
def pyFloat? (s0 : Str) : Option ℚ :=
  let t := stripWs s0
  let sgn : Int := match t with
    | 45 :: _ => -1
    | _ => 1
  let u : Str := match t with
    | 43 :: r => r
    | 45 :: r => r
    | _ => t
  let me := splitAtE u
  match me.2 with
  | none => (parseMant me.1).map fun nk => Rat.divInt (sgn * nk.1) ((10 : Int) ^ nk.2)
  | some es =>
    (parseMant me.1).bind fun nk =>
      (parseExpPart es).map fun ex =>
        let d : Int := ex - (nk.2 : Int)
        if 0 ≤ d then Rat.divInt (sgn * nk.1 * (10 : Int) ^ d.toNat) 1
        else Rat.divInt (sgn * nk.1) ((10 : Int) ^ (-d).toNat)

/-- Model of the python int() truncation toward zero on a rational. -/
def pyInt (q : ℚ) : Int := q.num / (q.den : Int)

/-!
Section: 02_transform.py, clean_result_values and its inner
parse_time_result, together with the DATA_QUALITY bounds from config.py.
-/

/-- Lower result bound from config.DATA_QUALITY (0.1). -/
def min_result_value : ℚ := mkRat 1 10

/-- Upper result bound from config.DATA_QUALITY (50000). -/
def max_result_value : ℚ := 50000

/-- Model of parse_time_result in 02_transform.py: the input is
stringified and stripped; DNF, DQ, DNS, NM and the empty string are
explicit non-results; with one colon the string is MM:SS.ss, with two
colons HH:MM:SS.ss; otherwise it is a direct float; every conversion
failure (ValueError) yields none, and a colon count other than one or
two falls off the conditional chain, also yielding none. -/
def parse_time_result (s0 : Str) : Option ℚ :=
  let s := stripWs s0
  if s ∈ [enc "DNF", enc "DQ", enc "DNS", enc "NM", ([] : Str)] then none
  else if s.contains 58 then
    match s.splitOn 58 with
    | [p0, p1] =>
      (pyFloat? p0).bind fun m => (pyFloat? p1).map fun sec => m * 60 + sec
    | [p0, p1, p2] =>
      (pyFloat? p0).bind fun h =>
        (pyFloat? p1).bind fun m =>
          (pyFloat? p2).map fun sec => h * 3600 + m * 60 + sec
    | _ => none
  else pyFloat? s

/-- Model of the per-row outcome of clean_result_values: the row is kept
only when parse_time_result yields a value inside the configured
DATA_QUALITY window; rows whose parse is none are dropped by the dropna
on result_numeric. -/
def resultRowKept (s : Str) : Bool :=
  match parse_time_result s with
  | none => false
  | some v => decide (min_result_value ≤ v) && decide (v ≤ max_result_value)

/-!
Section: 02_transform.py, clean_city_names, safe_float_convert and the
row pipeline of integrate_geographic_data.
-/

/-- Replace every occurrence of the adjacent pair a b by r, scanning left
to right without overlap (str.replace for a two-character pattern). -/
def replacePair (a b r : Nat) : Str → Str
  | [] => []
  | [c] => [c]
  | c :: d :: rest =>
    if c = a ∧ d = b then r :: replacePair a b r rest
    else c :: replacePair a b r (d :: rest)

/-- Mojibake repair table of clean_city_names: the ten two-character
UTF-8-as-Latin-1 sequences replaced by plain vowels and consonants. -/
def mojibakePairs : List (Nat × Nat × Nat) :=
  [(195, 161, 97), (195, 169, 101), (195, 173, 105), (195, 179, 111),
   (195, 186, 117), (195, 177, 110), (195, 167, 99), (195, 188, 117),
   (195, 182, 111), (195, 164, 97)]

/-- Apply the mojibake repairs in source order. -/
def fixMojibake (l : Str) : Str :=
  mojibakePairs.foldl (fun s p => replacePair p.1 p.2.1 p.2.2 s) l

/-- Word-character test for the regular expression class used by
clean_city_names: digits, ASCII letters, underscore, and the Latin-1
letters (the unicode letters that occur in the gazetteer). -/
def isWordB (n : Nat) : Bool :=
  isDigitB n || isAlphaB n || n == 95 || (192 ≤ n && n ≤ 255 && n != 215 && n != 247)

/-- Character filter of the re.sub in clean_city_names: keep word
characters, whitespace, hyphen and dot, delete everything else. -/
def keepCityChar (n : Nat) : Bool := isWordB n || isWsB n || n == 45 || n == 46

/-- NFD decomposition followed by ascii-ignore encoding, per character,
for the Latin-1 range: accented Latin-1 letters map to their ASCII base
letter, undecomposable non-ASCII letters are dropped, ASCII is kept. -/
def asciiFoldC (n : Nat) : Option Nat :=
  if n < 128 then some n
  else if 192 ≤ n ∧ n ≤ 197 then some 65
  else if n = 199 then some 67
  else if 200 ≤ n ∧ n ≤ 203 then some 69
  else if 204 ≤ n ∧ n ≤ 207 then some 73
  else if n = 209 then some 78
  else if 210 ≤ n ∧ n ≤ 214 then some 79
  else if 217 ≤ n ∧ n ≤ 220 then some 85
  else if n = 221 then some 89
  else if 224 ≤ n ∧ n ≤ 229 then some 97
  else if n = 231 then some 99
  else if 232 ≤ n ∧ n ≤ 235 then some 101
  else if 236 ≤ n ∧ n ≤ 239 then some 105
  else if n = 241 then some 110
  else if 242 ≤ n ∧ n ≤ 246 then some 111
  else if 249 ≤ n ∧ n ≤ 252 then some 117
  else if n = 253 then some 121
  else if n = 255 then some 121
  else none

/-- Model of unicodedata NFD plus ascii-ignore on a string. -/
def asciiFold (l : Str) : Str := l.filterMap asciiFoldC

/-- Model of str.title: the first cased character of every maximal
alphabetic run is uppercased and the rest are lowercased. -/
def titleGo : Bool → Str → Str
  | _, [] => []
  | prev, c :: cs =>
    if isAlphaB c then (if prev then lowC c else upC c) :: titleGo true cs
    else c :: titleGo false cs

/-- Model of str.title on a string. -/
def titleS (l : Str) : Str := titleGo false l

/-- Model of clean_city_names in 02_transform.py: null input yields the
sentinel Unknown; otherwise mojibake pairs are repaired, characters
outside word/whitespace/hyphen/dot are removed, the result is NFD
decomposed and encoded to ASCII with accents dropped, then stripped and
title-cased. -/
def clean_city_names (x : Option Str) : Str :=
  match x with
  | none => enc "Unknown"
  | some s => titleS (stripWs (asciiFold ((fixMojibake s).filter keepCityChar)))

/-- Model of safe_float_convert in 02_transform.py: null input yields
none, otherwise the stringified, stripped value is converted by float()
with conversion failure yielding none. -/
def safe_float_convert (x : Option Str) : Option ℚ :=
  match x with
  | none => none
  | some s => pyFloat? (stripWs s)

/-- Model of categorize_real_altitude in integrate_geographic_data:
null never reaches it after the fillna, a non-positive altitude is
Unknown, above 1500 is High, above 500 is Moderate, else Sea Level. -/
def categorize_real_altitude (alt : ℚ) : Str :=
  if alt ≤ 0 then enc "Unknown"
  else if 1500 < alt then enc "High"
  else if 500 < alt then enc "Moderate"
  else enc "Sea Level"

/-- Raw gazetteer row as read from staging.raw_cities: every field may be
missing. -/
structure RawCity where
  City : Option Str
  Country : Option Str
  Latitude : Option Str
  Longitude : Option Str
  Altitude : Option Str
deriving DecidableEq

/-- Cleaned gazetteer row produced by integrate_geographic_data. -/
structure CleanCity where
  city_name : Str
  country_name : Str
  latitude : ℚ
  longitude : ℚ
  altitude : ℚ
  altitude_category : Str
deriving DecidableEq

/-- Model of the per-row pipeline of integrate_geographic_data in
02_transform.py: names are cleaned and uppercased, coordinates converted
with safe_float_convert, rows with missing or out-of-range coordinates
are dropped by the valid_coords filter, the altitude column is filled
with the 100 m default before the altitude categories are computed. -/
def integrate_geographic_row (r : RawCity) : Option CleanCity :=
  match safe_float_convert r.Latitude, safe_float_convert r.Longitude with
  | some lat, some lon =>
    if -90 ≤ lat ∧ lat ≤ 90 ∧ -180 ≤ lon ∧ lon ≤ 180 then
      some
        { city_name := upS (clean_city_names r.City)
          country_name := upS (clean_city_names r.Country)
          latitude := lat
          longitude := lon
          altitude := (safe_float_convert r.Altitude).getD 100
          altitude_category := categorize_real_altitude ((safe_float_convert r.Altitude).getD 100) }
    else none
  | _, _ => none

/-!
Section: 02b_load_reconciled.py, normalize_athlete_name inside
reconcile_athletes.
-/

/-- Generational suffixes stripped by normalize_athlete_name, in source
order. -/
def suffixes_to_remove : List Str :=
  [enc " JR", enc " SR", enc " III", enc " II", enc " JUNIOR", enc " SENIOR"]

/-- One step of the suffix loop: when the string ends with the suffix,
the suffix is cut and the remainder stripped, otherwise the string is
unchanged. -/
def stripSuffixStep (l : Str) (suf : Str) : Str :=
  if isSuffixB suf l then stripWs (l.take (l.length - suf.length)) else l

/-- Core of normalize_athlete_name on a non-null input: uppercase and
strip, collapse internal whitespace runs through split and join, remove
periods, commas and apostrophes, then walk the suffix list once, cutting
each suffix that terminates the string. -/
def normalize_core (s : Str) : Str :=
  suffixes_to_remove.foldl stripSuffixStep
    (removeChar 39 (removeChar 44 (removeChar 46 (collapseWs (stripWs (upS s))))))

/-- Model of normalize_athlete_name in 02b_load_reconciled.py: a null
input returns None (not a sentinel string), otherwise the normalized
string. -/
def normalize_athlete_name : Option Str → Option Str
  | none => none
  | some s => some (normalize_core s)

/-!
Section: 02b_load_reconciled.py, extract_distance inside
reconcile_events.  The regular expressions of the source are modelled by
explicit leftmost-scan matchers with the same ordered-alternation and
greedy-option backtracking the re module performs on these patterns.
-/

/-- Leftmost-match scan: try the position matcher at every start
position from the left, first success wins (re.search). -/
def scanFirst (f : Str → Option α) : Str → Option α
  | [] => f []
  | c :: cs =>
    match f (c :: cs) with
    | some r => some r
    | none => scanFirst f cs

/-- Word-boundary test after a literal: the following character is
missing or is not a word character. -/
def wordBoundary (r : Str) : Bool :=
  match r with
  | [] => true
  | c :: _ => !isWordB c

/-- Matcher at one position for the first mile pattern, digits with an
optional fraction, optional whitespace, then the literal mile; returns
the numeric group. -/
def mile1aAt (s : Str) : Option Str :=
  let d1 := s.takeWhile isDigitB
  if d1 = [] then none
  else
    let r1 := s.dropWhile isDigitB
    let tail (g : Str) (r : Str) : Option Str :=
      if isPrefixB (enc "mile") (r.dropWhile isWsB) then some g else none
    match r1 with
    | 46 :: r2 =>
      let d2 := r2.takeWhile isDigitB
      if d2 = [] then tail d1 r1
      else (tail (d1 ++ 46 :: d2) (r2.dropWhile isDigitB)).orElse (fun _ => tail d1 r1)
    | _ => tail d1 r1

/-- Spelled-out mile multipliers used by the second mile pattern, with
the word_to_number values of the source. -/
def mileWords : List (Str × ℚ) :=
  [(enc "one", 1), (enc "two", 2), (enc "three", 3), (enc "four", 4),
   (enc "five", 5), (enc "half", mkRat 1 2)]

/-- Matcher at one position for the second mile pattern, a spelled-out
number, at least one whitespace, then the literal mile; returns the
word value. -/
def mile1bAt (s : Str) : Option ℚ :=
  (mileWords.find? fun wv =>
    isPrefixB wv.1 s &&
      (let r := s.drop wv.1.length
       match r with
       | c :: _ => isWsB c && isPrefixB (enc "mile") (r.dropWhile isWsB)
       | [] => false)).map (·.2)

/-- Matcher at one position for the third mile pattern, digits, optional
whitespace, the literal mi and a word boundary; returns the digits. -/
def mile1cAt (s : Str) : Option Str :=
  let d1 := s.takeWhile isDigitB
  if d1 = [] then none
  else
    let r := (s.dropWhile isDigitB).dropWhile isWsB
    if isPrefixB (enc "mi") r ∧ wordBoundary (r.drop 2) then some d1 else none

/-- Matcher at one position for the first meter pattern, digits,
optional whitespace, then metres, meters or m followed by a word
boundary, alternatives tried in source order. -/
def meter2aAt (s : Str) : Option Str :=
  let d1 := s.takeWhile isDigitB
  if d1 = [] then none
  else
    let r := (s.dropWhile isDigitB).dropWhile isWsB
    if isPrefixB (enc "metres") r ∧ wordBoundary (r.drop 6) then some d1
    else if isPrefixB (enc "meters") r ∧ wordBoundary (r.drop 6) then some d1
    else if isPrefixB (enc "m") r ∧ wordBoundary (r.drop 1) then some d1
    else none

/-- Matcher at one position for the second meter pattern, digits and
optional whitespace with a lookahead for m followed by whitespace. -/
def meter2bAt (s : Str) : Option Str :=
  let d1 := s.takeWhile isDigitB
  if d1 = [] then none
  else
    let r := (s.dropWhile isDigitB).dropWhile isWsB
    match r with
    | 109 :: c :: _ => if isWsB c then some d1 else none
    | _ => none

/-- Matcher at one position for the third meter pattern, digits directly
followed by m, with a lookahead for whitespace or end of string. -/
def meter2cAt (s : Str) : Option Str :=
  let d1 := s.takeWhile isDigitB
  if d1 = [] then none
  else
    match s.dropWhile isDigitB with
    | 109 :: rest =>
      match rest with
      | [] => some d1
      | c :: _ => if isWsB c then some d1 else none
    | _ => none

/-- Matcher at one position for the kilometre pattern, digits with an
optional fraction, optional whitespace, then kilometres, kilometers or
km followed by a word boundary. -/
def kmAt (s : Str) : Option Str :=
  let d1 := s.takeWhile isDigitB
  if d1 = [] then none
  else
    let r1 := s.dropWhile isDigitB
    let tail (g : Str) (r : Str) : Option Str :=
      let rw := r.dropWhile isWsB
      if isPrefixB (enc "kilometres") rw ∧ wordBoundary (rw.drop 10) then some g
      else if isPrefixB (enc "kilometers") rw ∧ wordBoundary (rw.drop 10) then some g
      else if isPrefixB (enc "km") rw ∧ wordBoundary (rw.drop 2) then some g
      else none
    match r1 with
    | 46 :: r2 =>
      let d2 := r2.takeWhile isDigitB
      if d2 = [] then tail d1 r1
      else (tail (d1 ++ 46 :: d2) (r2.dropWhile isDigitB)).orElse (fun _ => tail d1 r1)
    | _ => tail d1 r1

/-- Matcher at one position for the explicit-distance steeplechase
pattern, digits, an optional unit (m, metres, meters tried in source
order, then no unit), optional whitespace and the literal steeplechase. -/
def steepleAt (s : Str) : Option Str :=
  let d1 := s.takeWhile isDigitB
  if d1 = [] then none
  else
    let r1 := s.dropWhile isDigitB
    let tail (r : Str) : Bool := isPrefixB (enc "steeplechase") (r.dropWhile isWsB)
    if isPrefixB (enc "m") r1 ∧ tail (r1.drop 1) then some d1
    else if isPrefixB (enc "metres") r1 ∧ tail (r1.drop 6) then some d1
    else if isPrefixB (enc "meters") r1 ∧ tail (r1.drop 6) then some d1
    else if tail r1 then some d1
    else none

/-- Continuations after an optional unit literal, alternatives in the
source order m, metres, meters, then the unitless continuation. -/
def afterUnit (r : Str) : List Str :=
  (if isPrefixB (enc "m") r then [r.drop 1] else []) ++
  (if isPrefixB (enc "metres") r then [r.drop 6] else []) ++
  (if isPrefixB (enc "meters") r then [r.drop 6] else []) ++ [r]

/-- Matcher at one position for the relay pattern, a first number with
optional unit, optional whitespace, an optional x separator, a second
number with optional unit, then anything containing the literal relay;
returns the second numeric group, the per-leg distance. -/
def relayAt (s : Str) : Option Str :=
  let d1 := s.takeWhile isDigitB
  if d1 = [] then none
  else
    (afterUnit (s.dropWhile isDigitB)).findSome? fun t1 =>
      let t2 := t1.dropWhile isWsB
      let xs : List Str :=
        match t2 with
        | 120 :: r => [r.dropWhile isWsB, t2]
        | _ => [t2]
      xs.findSome? fun t3 =>
        let d2 := t3.takeWhile isDigitB
        if d2 = [] then none
        else (afterUnit (t3.dropWhile isDigitB)).findSome? fun t4 =>
          if containsSub (enc "relay") t4 then some d2 else none

/-- Named-distance special cases of extract_distance, in the iteration
order of the source dict. -/
def special_distances : List (Str × Int) :=
  [(enc "marathon", 42195), (enc "half marathon", 21098), (enc "steeplechase", 3000),
   (enc "110m hurdles", 110), (enc "100m hurdles", 100), (enc "400m hurdles", 400)]

/-- Step 4 of extract_distance: the first special key contained in the
event wins; for the steeplechase key an explicit distance prefix
overrides the default 3000. -/
def specialResult (el : Str) : Option Int :=
  (special_distances.find? fun kd => containsSub kd.1 el).map fun kd =>
    if containsSub (enc "steeplechase") kd.1 then
      match scanFirst steepleAt el with
      | some d => (digitsToNat d : Int)
      | none => kd.2
    else kd.2

/-- Metres per mile constant of the source (1609.344). -/
def milesFactor : ℚ := mkRat 1609344 1000

/-- Model of extract_distance in 02b_load_reconciled.py: on the
lowercased event name, mile patterns are tried first (converted at
1609.344 m per mile and truncated to int), then meter patterns, then
kilometre patterns, then the named special cases, then the relay
pattern, which keeps the second numeric group as the per-leg distance;
no match yields none. -/
def extract_distance (event : Str) : Option Int :=
  if event = [] then none
  else
    let el := lowS event
    let mile? : Option Int :=
      match (scanFirst mile1aAt el).bind pyFloat? with
      | some q => some (pyInt (q * milesFactor))
      | none =>
        match scanFirst mile1bAt el with
        | some q => some (pyInt (q * milesFactor))
        | none =>
          match scanFirst mile1cAt el with
          | some d => some (pyInt ((digitsToNat d : ℚ) * milesFactor))
          | none => none
    match mile? with
    | some v => some v
    | none =>
      match (scanFirst meter2aAt el).orElse (fun _ =>
          (scanFirst meter2bAt el).orElse (fun _ => scanFirst meter2cAt el)) with
      | some d => some (digitsToNat d : Int)
      | none =>
        match (scanFirst kmAt el).bind pyFloat? with
        | some q => some (pyInt (q * 1000))
        | none =>
          match specialResult el with
          | some v => some v
          | none => (scanFirst relayAt el).map fun d => (digitsToNat d : Int)

/-!
Section: 04_load_facts.py, EVENT_CATEGORIES,
get_event_duration_category and calculate_temperature_impact_factor.
-/

/-- EVENT_CATEGORIES of 04_load_facts.py, in dict iteration order. -/
def EVENT_CATEGORIES : List (Str × List Str) :=
  [(enc "Sprint",
    [enc "100 Metres", enc "200 Metres", enc "300 Metres", enc "400 Metres",
     enc "100 Metres Hurdles", enc "110 Metres Hurdles", enc "400 Metres Hurdles"]),
   (enc "Middle Distance",
    [enc "600 Metres", enc "800 Metres", enc "1000 Metres", enc "1500 Metres",
     enc "One Mile", enc "Two Miles", enc "3000 Metres", enc "3000 Metres Steeplechase",
     enc "2000 Metres", enc "2000 Metres Steeplechase"]),
   (enc "Distance",
    [enc "5000 Metres", enc "10000 Metres", enc "Marathon", enc "Half Marathon",
     enc "3000 Metres Race Walk", enc "5000 Metres Race Walk",
     enc "10000 Metres Race Walk", enc "20000 Metres Race Walk"]),
   (enc "Jumps",
    [enc "High Jump", enc "Long Jump", enc "Triple Jump", enc "Pole Vault"]),
   (enc "Throws",
    [enc "Shot Put", enc "Discus Throw", enc "Hammer Throw", enc "Javelin Throw"])]

/-- Model of get_event_duration_category in 04_load_facts.py: a null
event name falls to the Field default; otherwise the first category in
iteration order one of whose member names occurs lowercased inside the
stripped, lowercased event name wins, with Field as the default. -/
def get_event_duration_category (e : Option Str) : Str :=
  match e with
  | none => enc "Field"
  | some s =>
    let es := stripWs s
    match EVENT_CATEGORIES.find? (fun ce => ce.2.any fun v => containsSub (lowS v) (lowS es)) with
    | some ce => ce.1
    | none => enc "Field"

/-- Impact-rate selection of calculate_temperature_impact_factor in
04_load_facts.py: 0.001 per degree for Sprint, Jumps and Throws, 0.002
for Middle Distance, 0.004 for Distance, 0.002 for every other
category. -/
def temp_impact_rate (cat : Str) : ℚ :=
  if cat = enc "Sprint" ∨ cat = enc "Jumps" ∨ cat = enc "Throws" then mkRat 1 1000
  else if cat = enc "Middle Distance" then mkRat 2 1000
  else if cat = enc "Distance" then mkRat 4 1000
  else mkRat 2 1000

/-- Model of calculate_temperature_impact_factor in 04_load_facts.py: a
null temperature is neutral (factor 1); otherwise the deviation of the
temperature from the 11 degree optimum is scaled by the
duration-category rate and the factor 1 - deviation * rate is clamped
below at 0.5 and above at 1.5. -/
def calculate_temperature_impact_factor (t : Option ℚ) (e : Option Str) : ℚ :=
  match t with
  | none => 1
  | some temp =>
    max (mkRat 1 2)
      (min (mkRat 3 2) (1 - |temp - 11| * temp_impact_rate (get_event_duration_category e)))

/-!
Section: 02b_load_reconciled.py, extract_location_from_venue and the
geographic matching of reconcile_venues.
-/

/-- Matcher at one position for a parenthesised three-letter country
code. -/
def paren3At (s : Str) : Option Str :=
  match s with
  | 40 :: a :: b :: c :: 41 :: _ =>
    if isUpperB a && isUpperB b && isUpperB c then some [a, b, c] else none
  | _ => none

/-- Split off a terminal parenthesised three-letter code: returns the
text before it and the code when the string ends in one. -/
def endsParen3 (s : Str) : Option (Str × Str) :=
  match s.reverse with
  | 41 :: c :: b :: a :: 40 :: rest =>
    if isUpperB a && isUpperB b && isUpperB c then some (rest.reverse, [a, b, c]) else none
  | _ => none

/-- Country code translation table of extract_location_from_venue. -/
def country_mapping : List (Str × Str) :=
  [(enc "USA", enc "US"), (enc "GBR", enc "GB"), (enc "GER", enc "DE"), (enc "FRA", enc "FR"),
   (enc "ITA", enc "IT"), (enc "SUI", enc "CH"), (enc "BEL", enc "BE"), (enc "SWE", enc "SE"),
   (enc "FIN", enc "FI"), (enc "GRE", enc "GR"), (enc "CHN", enc "CN"), (enc "JAM", enc "JM"),
   (enc "CUB", enc "CU"), (enc "MON", enc "MC"), (enc "RUS", enc "RU"), (enc "NED", enc "NL"),
   (enc "ESP", enc "ES"), (enc "JPN", enc "JP"), (enc "HUN", enc "HU"), (enc "AUT", enc "AT"),
   (enc "POL", enc "PL"), (enc "CZE", enc "CZ"), (enc "BRA", enc "BR"), (enc "QAT", enc "QA"),
   (enc "UKR", enc "UA"), (enc "AUS", enc "AU"), (enc "CRO", enc "HR"), (enc "ROU", enc "RO"),
   (enc "BUL", enc "BG"), (enc "KOR", enc "KR"), (enc "BLR", enc "BY"), (enc "URS", enc "RU"),
   (enc "NOR", enc "NO")]

/-- Pattern 1 of extract_location_from_venue: City, STATE (COUNTRY).
The group before the single comma is letters and whitespace only, after
the comma exactly two uppercase letters surrounded by optional
whitespace, then the terminal code. -/
def venuePattern1 (s : Str) : Option Str :=
  (endsParen3 s).bind fun br =>
    let p := br.1
    if p.contains 44 then
      let pre := p.takeWhile (fun c => c ≠ 44)
      let post := (p.dropWhile (fun c => c ≠ 44)).drop 1
      if pre ≠ [] ∧ pre.all (fun c => isAlphaB c || isWsB c) then
        match post.dropWhile isWsB with
        | u1 :: u2 :: rest =>
          if isUpperB u1 ∧ isUpperB u2 ∧ rest.all isWsB then some (stripWs pre) else none
        | _ => none
      else none
    else none

/-- Pattern 2 of extract_location_from_venue: Stadium, City, STATE
(COUNTRY).  Any first segment, a letters-and-whitespace city between
the first and second commas, then a two-letter state and the code. -/
def venuePattern2 (s : Str) : Option Str :=
  (endsParen3 s).bind fun br =>
    let p := br.1
    if p.contains 44 then
      let pre := p.takeWhile (fun c => c ≠ 44)
      let rest1 := (p.dropWhile (fun c => c ≠ 44)).drop 1
      if pre = [] then none
      else if rest1.contains 44 then
        let mid := rest1.takeWhile (fun c => c ≠ 44)
        let post := (rest1.dropWhile (fun c => c ≠ 44)).drop 1
        if mid ≠ [] ∧ mid.all (fun c => isAlphaB c || isWsB c) then
          match post.dropWhile isWsB with
          | u1 :: u2 :: r =>
            if isUpperB u1 ∧ isUpperB u2 ∧ r.all isWsB then some (stripWs mid) else none
          | _ => none
        else none
      else none
    else none

/-- Pattern 3 of extract_location_from_venue: Stadium, City (COUNTRY).
Any first segment before the first comma, then a city free of commas
and parentheses running to the terminal code. -/
def venuePattern3 (s : Str) : Option Str :=
  (endsParen3 s).bind fun br =>
    let p := br.1
    if p.contains 44 then
      let pre := p.takeWhile (fun c => c ≠ 44)
      let mid := (p.dropWhile (fun c => c ≠ 44)).drop 1
      if pre ≠ [] ∧ mid ≠ [] ∧ mid.all (fun c => c ≠ 44 ∧ c ≠ 40 ∧ c ≠ 41) then
        some (stripWs mid)
      else none
    else none

/-- Pattern 4 of extract_location_from_venue: City (COUNTRY).  The whole
text before the terminal code, free of commas and parentheses. -/
def venuePattern4 (s : Str) : Option Str :=
  (endsParen3 s).bind fun br =>
    let p := br.1
    if p ≠ [] ∧ p.all (fun c => c ≠ 44 ∧ c ≠ 40 ∧ c ≠ 41) then some (stripWs p) else none

/-- Special-case venue substrings of extract_location_from_venue, in
source order.  The apostrophe of the second key is code point 39. -/
def venue_special_cases : List (Str × Str) :=
  [(enc "Paris-St-Denis", enc "Paris"),
   (enc "Villeneuve d" ++ [39] ++ enc "Ascq", enc "Lille"),
   (enc "Adler, Sochi", enc "Sochi"),
   (enc "DS, Daegu", enc "Daegu"),
   (enc "La Cartuja, Sevilla", enc "Sevilla")]

/-- Model of extract_location_from_venue in 02b_load_reconciled.py:
returns the extracted city and two-letter country code.  A null venue
is Unknown/XX; otherwise the first parenthesised three-letter code
anywhere in the string is translated through the static table (falling
back to its first two letters, with Unknown giving Un); the four
structural patterns are tried in order, then the special-case substring
table, and with no match the city is Unknown.  No confidence value is
computed anywhere. -/
def extract_location_from_venue (x : Option Str) : Str × Str :=
  match x with
  | none => (enc "Unknown", enc "XX")
  | some v0 =>
    let v := stripWs v0
    let c3 := (scanFirst paren3At v).getD (enc "Unknown")
    let c2 :=
      match country_mapping.find? (fun p => p.1 = c3) with
      | some p => p.2
      | none => if 2 ≤ c3.length then c3.take 2 else enc "XX"
    match venuePattern1 v with
    | some city => (city, c2)
    | none =>
      match venuePattern2 v with
      | some city => (city, c2)
      | none =>
        match venuePattern3 v with
        | some city => (city, c2)
        | none =>
          match venuePattern4 v with
          | some city => (city, c2)
          | none =>
            match venue_special_cases.find? (fun p => containsSub p.1 v) with
            | some p => (p.2, c2)
            | none => (enc "Unknown", c2)

/-- City standardization table of reconcile_venues (the venue-side
variant, with the two extra Swedish and German entries). -/
def city_standardization : List (Str × Str) :=
  [(enc "ROMA", enc "ROME"), (enc "ATHINA", enc "ATHENS"), (enc "BRUXELLES", enc "BRUSSELS"),
   (enc "LA HABANA", enc "HAVANA"), (enc "ZÜRICH", enc "ZURICH"), (enc "MÜNCHEN", enc "MUNICH"),
   (enc "MOSKVA", enc "MOSCOW"), (enc "BUCUREŞTI", enc "BUCHAREST"), (enc "PRAHA", enc "PRAGUE"),
   (enc "WARSZAWA", enc "WARSAW"), (enc "GÖTEBORG", enc "GOTHENBURG"), (enc "KÖLN", enc "COLOGNE")]

/-- Gazetteer row as selected by reconcile_venues from
staging.clean_cities (the query keeps only rows whose altitude is
present). -/
structure GazRow where
  city_name : Str
  country_name : Str
  latitude : ℚ
  longitude : ℚ
  altitude : ℚ
  altitude_category : Str
deriving DecidableEq

/-- Venue-side join key: starting from the extracted city, uppercase,
standardize through the static table, and strip and uppercase again. -/
def venueCityClean (venue : Option Str) : Str :=
  let e := extract_location_from_venue venue
  let std :=
    match city_standardization.find? (fun p => p.1 = upS e.1) with
    | some p => p.2
    | none => upS e.1
  stripWs (upS std)

/-- Venue-side country join key: the extracted two-letter code, stripped
and uppercased. -/
def venueCountryClean (venue : Option Str) : Str :=
  stripWs (upS (extract_location_from_venue venue).2)

/-- Gazetteer-side city join key. -/
def gazCityClean (r : GazRow) : Str := stripWs (upS r.city_name)

/-- Gazetteer-side country join key. -/
def gazCountryClean (r : GazRow) : Str := stripWs (upS r.country_name)

/-- Model of the two-step geographic matching of reconcile_venues: first
the exact city and country merge (keeping the first gazetteer row, as
the later duplicate drop does), and for rows left unmatched the
city-only fallback against the gazetteer deduplicated by city keeping
the first row.  The fallback is applied to every unmatched venue
unconditionally. -/
def reconcile_venue_geo (gaz : List GazRow) (venue : Option Str) : Option GazRow :=
  match gaz.find? (fun r => gazCityClean r = venueCityClean venue ∧
      gazCountryClean r = venueCountryClean venue) with
  | some r => some r
  | none => gaz.find? (fun r => gazCityClean r = venueCityClean venue)

/-- Stadium keywords named by the spec for the single-segment case. -/
def stadium_keywords : List Str := [enc "stadium", enc "arena", enc "field", enc "track"]

/-- Modelled from the spec: the extraction confidence of section 4.2,
which the implementation does not compute.  A curated-table hit is 95, a
comma-split with two or more parts is 85, a single part without a
stadium, arena, field or track keyword is 75, and everything else is
20.  The special-case substring table of the source stands in for the
curated venue lookup. -/
def spec_extraction_confidence (venue : Str) : Nat :=
  if venue_special_cases.any (fun p => containsSub (lowS p.1) (lowS venue)) then 95
  else
    let body :=
      match endsParen3 (stripWs venue) with
      | some br => stripWs br.1
      | none => stripWs venue
    let parts := body.splitOn 44
    if 2 ≤ parts.length then 85
    else if parts.length = 1 ∧ ¬ stadium_keywords.any (fun kw => containsSub kw (lowS body)) then 75
    else 20

/-!
Section: 04_load_facts.py, WORLD_ATHLETICS_COEFFICIENTS and
calculate_performance_score_enhanced, REALISTIC_PERFORMANCE_THRESHOLDS
and is_realistic_performance, calculate_altitude_adjustment.
-/

/-- Scoring coefficient row: score is A times the C power of the gap to
the baseline B. -/
structure Coeff where
  A : ℚ
  B : ℚ
  C : ℚ
deriving DecidableEq

/-- Realism threshold row; absent bounds are not enforced. -/
structure Thresh where
  maxTime : Option ℚ
  minTime : Option ℚ
  maxDist : Option ℚ
  minDist : Option ℚ
deriving DecidableEq

/-- WORLD_ATHLETICS_COEFFICIENTS[M] of 04_load_facts.py, in dict iteration order (duplicate keys keep their first position with the last assigned value, as the python dict literal does). -/
def coeffsM : List (Str × Coeff) :=
  [(enc "100 Metres", ⟨28.67, 18, 1.81⟩),
  (enc "200 Metres", ⟨6.674, 38, 1.81⟩),
  (enc "400 Metres", ⟨1.745, 82, 1.81⟩),
  (enc "800 Metres", ⟨0.1444, 254, 1.81⟩),
  (enc "1500 Metres", ⟨0.0504, 480, 1.81⟩),
  (enc "5000 Metres", ⟨0.00283, 2100, 1.81⟩),
  (enc "10000 Metres", ⟨0.0008436, 4200, 1.81⟩),
  (enc "110 Metres Hurdles", ⟨6.544, 28.5, 1.92⟩),
  (enc "400 Metres Hurdles", ⟨0.8722, 95.5, 1.88⟩),
  (enc "3000 Metres Steeplechase", ⟨0.004711, 1254, 1.88⟩),
  (enc "High Jump", ⟨625.1, 0.75, 1.4⟩),
  (enc "Long Jump", ⟨79.42, 1.4, 1.4⟩),
  (enc "Triple Jump", ⟨27.37, 2.5, 1.4⟩),
  (enc "Pole Vault", ⟨142.2, 1, 1.35⟩),
  (enc "Shot Put", ⟨51.8, 1.5, 1.05⟩),
  (enc "Discus Throw", ⟨12.28, 4, 1.1⟩),
  (enc "Hammer Throw", ⟨13.17, 7, 1.05⟩),
  (enc "Javelin Throw", ⟨7.58, 7, 1.15⟩),
  (enc "300 Metres", ⟨2.139, 65, 1.81⟩),
  (enc "600 Metres", ⟨0.2414, 185, 1.81⟩),
  (enc "1000 Metres", ⟨0.0601, 375, 1.81⟩),
  (enc "2000 Metres", ⟨0.02174, 720, 1.81⟩),
  (enc "3000 Metres", ⟨0.007944, 1200, 1.81⟩),
  (enc "One Mile", ⟨0.04907, 500, 1.81⟩),
  (enc "Two Miles", ⟨0.013154, 1050, 1.81⟩),
  (enc "5 Kilometres", ⟨0.002768, 2100, 1.81⟩),
  (enc "10 Kilometres", ⟨0.0008375, 4200, 1.81⟩),
  (enc "15 Kilometres", ⟨0.000407, 6300, 1.81⟩),
  (enc "20 Kilometres", ⟨0.0002434, 8400, 1.81⟩),
  (enc "Half Marathon", ⟨0.00143, 5400, 1.81⟩),
  (enc "Marathon", ⟨0.0004865, 10800, 1.81⟩),
  (enc "10 Miles Road", ⟨0.0003, 7200, 1.81⟩),
  (enc "3000 Metres Race Walk", ⟨0.003503, 1800, 1.81⟩),
  (enc "5000 Metres Race Walk", ⟨0.001396, 3000, 1.81⟩),
  (enc "10000 Metres Race Walk", ⟨0.0004205, 6000, 1.81⟩),
  (enc "20000 Metres Race Walk", ⟨0.0001251, 12000, 1.81⟩),
  (enc "5 Kilometres Race Walk", ⟨0.00139, 3000, 1.81⟩),
  (enc "10 Kilometres Race Walk", ⟨0.0004214, 6000, 1.81⟩),
  (enc "20 Kilometres Race Walk", ⟨0.0001255, 12000, 1.81⟩),
  (enc "30 Kilometres Race Walk", ⟨6.34e-05, 18000, 1.81⟩),
  (enc "35 Kilometres Race Walk", ⟨4.824e-05, 21000, 1.81⟩),
  (enc "50 Kilometres Race Walk", ⟨2.723e-05, 30000, 1.81⟩)]

/-- WORLD_ATHLETICS_COEFFICIENTS[F] of 04_load_facts.py, in dict iteration order (duplicate keys keep their first position with the last assigned value, as the python dict literal does). -/
def coeffsF : List (Str × Coeff) :=
  [(enc "100 Metres", ⟨18.6, 21, 1.81⟩),
  (enc "200 Metres", ⟨5.217, 42.5, 1.81⟩),
  (enc "400 Metres", ⟨1.377, 91.7, 1.81⟩),
  (enc "800 Metres", ⟨0.115936, 285, 1.81⟩),
  (enc "1500 Metres", ⟨0.04106, 535, 1.81⟩),
  (enc "5000 Metres", ⟨0.00213, 2400, 1.81⟩),
  (enc "10000 Metres", ⟨0.00064, 4800, 1.81⟩),
  (enc "100 Metres Hurdles", ⟨9.31, 26.7, 1.835⟩),
  (enc "400 Metres Hurdles", ⟨0.671, 107, 1.88⟩),
  (enc "3000 Metres Steeplechase", ⟨0.003303, 1465, 1.88⟩),
  (enc "300 Metres", ⟨1.789, 72, 1.81⟩),
  (enc "600 Metres", ⟨0.1903, 210, 1.81⟩),
  (enc "1000 Metres", ⟨0.04778, 425, 1.81⟩),
  (enc "2000 Metres", ⟨0.01626, 820, 1.81⟩),
  (enc "3000 Metres", ⟨0.005886, 1380, 1.81⟩),
  (enc "One Mile", ⟨0.03708, 570, 1.81⟩),
  (enc "Two Miles", ⟨0.00972, 1200, 1.81⟩),
  (enc "5 Kilometres", ⟨0.002119, 2400, 1.81⟩),
  (enc "10 Kilometres", ⟨0.000641, 4800, 1.81⟩),
  (enc "15 Kilometres", ⟨0.0003061, 7200, 1.81⟩),
  (enc "20 Kilometres", ⟨0.0001841, 9600, 1.81⟩),
  (enc "Half Marathon", ⟨0.0008882, 6300, 1.81⟩),
  (enc "Marathon", ⟨0.00029305, 12600, 1.81⟩),
  (enc "10 Miles Road", ⟨0.0002112, 8400, 1.81⟩),
  (enc "3000 Metres Race Walk", ⟨0.0024365, 2100, 1.81⟩),
  (enc "5000 Metres Race Walk", ⟨0.00093, 3600, 1.81⟩),
  (enc "10000 Metres Race Walk", ⟨0.0002728, 7200, 1.81⟩),
  (enc "20000 Metres Race Walk", ⟨8.003e-05, 14400, 1.81⟩),
  (enc "5 Kilometres Race Walk", ⟨0.000934, 3600, 1.81⟩),
  (enc "10 Kilometres Race Walk", ⟨0.0002733, 7200, 1.81⟩),
  (enc "20 Kilometres Race Walk", ⟨8.08e-05, 14400, 1.81⟩),
  (enc "35 Kilometres Race Walk", ⟨3.187e-05, 25200, 1.81⟩),
  (enc "50 Kilometres Race Walk", ⟨1.765e-05, 36000, 1.81⟩),
  (enc "High Jump", ⟨869, 0.75, 1.4⟩),
  (enc "Long Jump", ⟨105.53, 1.4, 1.4⟩),
  (enc "Triple Jump", ⟨34.86, 2.5, 1.4⟩),
  (enc "Pole Vault", ⟨194.6, 1, 1.35⟩),
  (enc "Shot Put", ⟨55.75, 1.5, 1.05⟩),
  (enc "Discus Throw", ⟨12.18, 3, 1.1⟩),
  (enc "Hammer Throw", ⟨13.26, 4, 1.05⟩),
  (enc "Javelin Throw", ⟨9.983, 3, 1.15⟩)]

/-- REALISTIC_PERFORMANCE_THRESHOLDS[M] of 04_load_facts.py, in dict iteration order; values are written with mkRat (mkRat n d is n/d). -/
def thresholdsM : List (Str × Thresh) :=
  [(enc "100 Metres", ⟨some (mkRat 11 1), some (mkRat 957 100), none, none⟩),
  (enc "200 Metres", ⟨some (mkRat 22 1), some (mkRat 959 50), none, none⟩),
  (enc "400 Metres", ⟨some (mkRat 50 1), some (mkRat 2151 50), none, none⟩),
  (enc "300 Metres", ⟨some (mkRat 35 1), some (mkRat 154 5), none, none⟩),
  (enc "600 Metres", ⟨some (mkRat 80 1), some (mkRat 6713 100), none, none⟩),
  (enc "1000 Metres", ⟨some (mkRat 170 1), some (mkRat 2639 20), none, none⟩),
  (enc "2000 Metres", ⟨some (mkRat 360 1), some (mkRat 14239 50), none, none⟩),
  (enc "3000 Metres", ⟨some (mkRat 550 1), some (mkRat 1691 4), none, none⟩),
  (enc "Two Miles", ⟨some (mkRat 550 1), some (mkRat 23633 50), none, none⟩),
  (enc "3000 Metres Steeplechase", ⟨some (mkRat 600 1), some (mkRat 24323 50), none, none⟩),
  (enc "5 Kilometres", ⟨some (mkRat 950 1), some (mkRat 756 1), none, none⟩),
  (enc "10 Kilometres", ⟨some (mkRat 1900 1), some (mkRat 1576 1), none, none⟩),
  (enc "15 Kilometres", ⟨some (mkRat 3000 1), some (mkRat 2525 1), none, none⟩),
  (enc "20 Kilometres", ⟨some (mkRat 4000 1), some (mkRat 3377 1), none, none⟩),
  (enc "Half Marathon", ⟨some (mkRat 4500 1), some (mkRat 3668 1), none, none⟩),
  (enc "10 Miles Road", ⟨some (mkRat 3200 1), some (mkRat 2707 1), none, none⟩),
  (enc "3000 Metres Race Walk", ⟨some (mkRat 900 1), some (mkRat 665 1), none, none⟩),
  (enc "5000 Metres Race Walk", ⟨some (mkRat 1400 1), some (mkRat 1134 1), none, none⟩),
  (enc "10000 Metres Race Walk", ⟨some (mkRat 2700 1), some (mkRat 2316 1), none, none⟩),
  (enc "20000 Metres Race Walk", ⟨some (mkRat 5400 1), some (mkRat 4666 1), none, none⟩),
  (enc "5 Kilometres Race Walk", ⟨some (mkRat 1400 1), some (mkRat 1134 1), none, none⟩),
  (enc "10 Kilometres Race Walk", ⟨some (mkRat 2700 1), some (mkRat 2316 1), none, none⟩),
  (enc "20 Kilometres Race Walk", ⟨some (mkRat 5400 1), some (mkRat 4666 1), none, none⟩),
  (enc "30 Kilometres Race Walk", ⟨some (mkRat 8200 1), some (mkRat 7199 1), none, none⟩),
  (enc "35 Kilometres Race Walk", ⟨some (mkRat 9600 1), some (mkRat 8399 1), none, none⟩),
  (enc "50 Kilometres Race Walk", ⟨some (mkRat 14000 1), some (mkRat 12396 1), none, none⟩),
  (enc "800 Metres", ⟨some (mkRat 130 1), some (mkRat 1009 10), none, none⟩),
  (enc "1500 Metres", ⟨some (mkRat 260 1), some (mkRat 20599 100), none, none⟩),
  (enc "One Mile", ⟨some (mkRat 280 1), some (mkRat 5578 25), none, none⟩),
  (enc "5000 Metres", ⟨some (mkRat 900 1), some (mkRat 37867 50), none, none⟩),
  (enc "10000 Metres", ⟨some (mkRat 1800 1), some (mkRat 39438 25), none, none⟩),
  (enc "Marathon", ⟨some (mkRat 9000 1), some (mkRat 7298 1), none, none⟩),
  (enc "110 Metres Hurdles", ⟨some (mkRat 15 1), some (mkRat 1279 100), none, none⟩),
  (enc "400 Metres Hurdles", ⟨some (mkRat 55 1), some (mkRat 4593 100), none, none⟩),
  (enc "High Jump", ⟨none, none, some (mkRat 123 50), some (mkRat 3 2)⟩),
  (enc "Long Jump", ⟨none, none, some (mkRat 224 25), some (mkRat 5 1)⟩),
  (enc "Triple Jump", ⟨none, none, some (mkRat 183 10), some (mkRat 10 1)⟩),
  (enc "Pole Vault", ⟨none, none, some (mkRat 156 25), some (mkRat 3 1)⟩),
  (enc "Shot Put", ⟨none, none, some (mkRat 1169 50), some (mkRat 8 1)⟩),
  (enc "Discus Throw", ⟨none, none, some (mkRat 7409 100), some (mkRat 30 1)⟩),
  (enc "Hammer Throw", ⟨none, none, some (mkRat 347 4), some (mkRat 40 1)⟩),
  (enc "Javelin Throw", ⟨none, none, some (mkRat 9849 100), some (mkRat 40 1)⟩)]

/-- REALISTIC_PERFORMANCE_THRESHOLDS[F] of 04_load_facts.py, in dict iteration order; values are written with mkRat (mkRat n d is n/d). -/
def thresholdsF : List (Str × Thresh) :=
  [(enc "100 Metres", ⟨some (mkRat 12 1), some (mkRat 262 25), none, none⟩),
  (enc "200 Metres", ⟨some (mkRat 24 1), some (mkRat 2133 100), none, none⟩),
  (enc "400 Metres", ⟨some (mkRat 55 1), some (mkRat 4759 100), none, none⟩),
  (enc "300 Metres", ⟨some (mkRat 38 1), some (mkRat 3413 100), none, none⟩),
  (enc "600 Metres", ⟨some (mkRat 90 1), some (mkRat 1831 25), none, none⟩),
  (enc "1000 Metres", ⟨some (mkRat 185 1), some (mkRat 14933 100), none, none⟩),
  (enc "2000 Metres", ⟨some (mkRat 400 1), some (mkRat 31857 100), none, none⟩),
  (enc "3000 Metres", ⟨some (mkRat 620 1), some (mkRat 4861 10), none, none⟩),
  (enc "One Mile", ⟨some (mkRat 300 1), some (mkRat 5051 20), none, none⟩),
  (enc "Two Miles", ⟨some (mkRat 620 1), some (mkRat 13508 25), none, none⟩),
  (enc "3000 Metres Steeplechase", ⟨some (mkRat 700 1), some (mkRat 55877 100), none, none⟩),
  (enc "5 Kilometres", ⟨some (mkRat 1050 1), some (mkRat 850 1), none, none⟩),
  (enc "10 Kilometres", ⟨some (mkRat 2150 1), some (mkRat 1771 1), none, none⟩),
  (enc "15 Kilometres", ⟨some (mkRat 3300 1), some (mkRat 2812 1), none, none⟩),
  (enc "20 Kilometres", ⟨some (mkRat 4500 1), some (mkRat 3899 1), none, none⟩),
  (enc "Half Marathon", ⟨some (mkRat 5100 1), some (mkRat 4078 1), none, none⟩),
  (enc "10 Miles Road", ⟨some (mkRat 3600 1), some (mkRat 3049 1), none, none⟩),
  (enc "3000 Metres Race Walk", ⟨some (mkRat 1000 1), some (mkRat 749 1), none, none⟩),
  (enc "5000 Metres Race Walk", ⟨some (mkRat 1600 1), some (mkRat 1288 1), none, none⟩),
  (enc "10000 Metres Race Walk", ⟨some (mkRat 3200 1), some (mkRat 2643 1), none, none⟩),
  (enc "20000 Metres Race Walk", ⟨some (mkRat 6500 1), some (mkRat 5466 1), none, none⟩),
  (enc "5 Kilometres Race Walk", ⟨some (mkRat 1600 1), some (mkRat 1288 1), none, none⟩),
  (enc "10 Kilometres Race Walk", ⟨some (mkRat 3200 1), some (mkRat 2643 1), none, none⟩),
  (enc "20 Kilometres Race Walk", ⟨some (mkRat 6500 1), some (mkRat 5466 1), none, none⟩),
  (enc "35 Kilometres Race Walk", ⟨some (mkRat 11500 1), some (mkRat 10199 1), none, none⟩),
  (enc "50 Kilometres Race Walk", ⟨some (mkRat 16500 1), some (mkRat 14413 1), none, none⟩),
  (enc "800 Metres", ⟨some (mkRat 140 1), some (mkRat 11327 100), none, none⟩),
  (enc "1500 Metres", ⟨some (mkRat 280 1), some (mkRat 11503 50), none, none⟩),
  (enc "5000 Metres", ⟨some (mkRat 1000 1), some (mkRat 42557 50), none, none⟩),
  (enc "10000 Metres", ⟨some (mkRat 2100 1), some (mkRat 177177 100), none, none⟩),
  (enc "Marathon", ⟨some (mkRat 10800 1), some (mkRat 8168 1), none, none⟩),
  (enc "100 Metres Hurdles", ⟨some (mkRat 15 1), some (mkRat 1219 100), none, none⟩),
  (enc "400 Metres Hurdles", ⟨some (mkRat 60 1), some (mkRat 5067 100), none, none⟩),
  (enc "High Jump", ⟨none, none, some (mkRat 21 10), some (mkRat 13 10)⟩),
  (enc "Long Jump", ⟨none, none, some (mkRat 753 100), some (mkRat 9 2)⟩),
  (enc "Triple Jump", ⟨none, none, some (mkRat 63 4), some (mkRat 9 1)⟩),
  (enc "Pole Vault", ⟨none, none, some (mkRat 507 100), some (mkRat 5 2)⟩),
  (enc "Shot Put", ⟨none, none, some (mkRat 566 25), some (mkRat 7 1)⟩),
  (enc "Discus Throw", ⟨none, none, some (mkRat 7681 100), some (mkRat 25 1)⟩),
  (enc "Hammer Throw", ⟨none, none, some (mkRat 8299 100), some (mkRat 35 1)⟩),
  (enc "Javelin Throw", ⟨none, none, some (mkRat 7229 100), some (mkRat 25 1)⟩)]

/-- Coefficient lookup shared by the scoring function: exact
(case-sensitive) dict membership first, then the first table row whose
lowercased key occurs inside the lowercased event name or conversely. -/
def findCoeffs (tbl : List (Str × Coeff)) (eventStr : Str) : Option Coeff :=
  match tbl.find? (fun p => p.1 = eventStr) with
  | some p => some p.2
  | none =>
    (tbl.find? fun p =>
      containsSub (lowS p.1) (lowS eventStr) || containsSub (lowS eventStr) (lowS p.1)).map (·.2)

/-- The coefficient dict is indexed by the raw gender value; any key
other than M or F raises KeyError, modelled as none. -/
def genderCoeffs (gender : Str) : Option (List (Str × Coeff)) :=
  if gender = enc "M" then some coeffsM
  else if gender = enc "F" then some coeffsF
  else none

/-- The coefficient row calculate_performance_score_enhanced resolves for
a gender and a stripped event name. -/
def coeffsFor (gender event : Str) : Option Coeff :=
  (genderCoeffs gender).bind fun tbl => findCoeffs tbl (stripWs event)

/-- All coefficient rows of both gender tables. -/
def allCoeffs : List Coeff := coeffsM.map Prod.snd ++ coeffsF.map Prod.snd

/-- Model of calculate_performance_score_enhanced in 04_load_facts.py.
A null event or non-positive result returns the 500 default; a gender
outside M and F raises KeyError, caught by the outer handler as 500.
With a resolved coefficient row, time events score
A * (abs (B - result)) ^ C clamped to the interval from 0 to 1400;
distance events at or below the baseline B return the unclamped-above
minimal score A * (abs (result - B)) ^ C * 0.1 floored at 0, and above
the baseline the clamped A * (abs (result - B)) ^ C.  When no
coefficient row matches, the function falls off the branch and returns
None: the call of the legacy fallback in the source is commented out,
although the adjacent comment says to use the legacy calculation. -/
noncomputable def calculate_performance_score_enhanced
    (result : ℚ) (event unit gender : Option Str) : Option ℝ :=
  match event with
  | none => some 500
  | some ev =>
    if result ≤ 0 then some 500
    else
      match gender.bind genderCoeffs with
      | none => some 500
      | some tbl =>
        match findCoeffs tbl (stripWs ev) with
        | none => none
        | some c =>
          if unit = some (enc "seconds") then
            if result ≤ 0 then some 0
            else some (max 0 (min 1400 ((c.A : ℝ) * |(c.B : ℝ) - (result : ℝ)| ^ ((c.C : ℚ) : ℝ))))
          else
            if result ≤ c.B then
              some (max 0 ((c.A : ℝ) * |(result : ℝ) - (c.B : ℝ)| ^ ((c.C : ℚ) : ℝ) * (1 / 10)))
            else
              some (max 0 (min 1400 ((c.A : ℝ) * |(result : ℝ) - (c.B : ℝ)| ^ ((c.C : ℚ) : ℝ))))

/-- Threshold lookup of is_realistic_performance: exact membership, then
the first row related by lowercased substring containment either way. -/
def findThresh (tbl : List (Str × Thresh)) (eventStr : Str) : Option Thresh :=
  match tbl.find? (fun p => p.1 = eventStr) with
  | some p => some p.2
  | none =>
    (tbl.find? fun p =>
      containsSub (lowS p.1) (lowS eventStr) || containsSub (lowS eventStr) (lowS p.1)).map (·.2)

/-- Model of is_realistic_performance in 04_load_facts.py: null result
or event or a non-positive result is unrealistic; the gender key is M
when the stringified uppercased gender is M, MALE or MEN (a null gender
stringifies to nan and so falls to F); an event with no threshold row
passes unfiltered; otherwise the time window applies for the seconds
unit and the distance window for everything else. -/
def is_realistic_performance (result : ℚ) (event unit gender : Option Str) : Bool :=
  match event with
  | none => false
  | some ev =>
    if result ≤ 0 then false
    else
      let gstr : Str := match gender with
        | none => enc "nan"
        | some g => g
      let tbl := if upS gstr ∈ [enc "M", enc "MALE", enc "MEN"] then thresholdsM else thresholdsF
      match findThresh tbl (stripWs ev) with
      | none => true
      | some th =>
        if unit = some (enc "seconds") then
          (match th.maxTime with
           | some m => decide (result ≤ m)
           | none => true) &&
          (match th.minTime with
           | some m => decide (m ≤ result)
           | none => true)
        else
          (match th.maxDist with
           | some m => decide (result ≤ m)
           | none => true) &&
          (match th.minDist with
           | some m => decide (m ≤ result)
           | none => true)

/-- Model of calculate_altitude_adjustment in 04_load_facts.py: below
the 300 m baseline (or with null altitude) the result is unchanged;
endurance events divide out a 6.3 percent per km penalty, sprints
multiply in a 0.95 percent per km benefit, throws divide out 1.2
percent per km, jumps 0.8 percent per km, other categories are
unchanged; the adjusted value is clamped to the DECIMAL(10,3) window. -/
def calculate_altitude_adjustment (result : ℚ) (altitude : Option ℚ) (event : Option Str) : ℚ :=
  match altitude with
  | none => result
  | some alt =>
    if alt ≤ 300 then result
    else
      let cat := get_event_duration_category event
      let altKm := (alt - 300) / 1000
      let sea :=
        if cat = enc "Middle Distance" ∨ cat = enc "Distance" then
          result / (1 + altKm * mkRat 63 1000)
        else if cat = enc "Sprint" then result * (1 + altKm * mkRat 95 10000)
        else if cat = enc "Throws" then result / (1 + altKm * mkRat 12 1000)
        else if cat = enc "Jumps" then result / (1 + altKm * mkRat 8 1000)
        else result
      max 0 (min 999999 sea)

/-!
Section: 02b_load_reconciled.py reconcile_performances, key assignment
and filtering, and 04_load_facts.py load_fact_table, the fact-stage
joins and filters.
-/

/-- Join state of one performance row in reconcile_performances: the
keys delivered by the athlete, event and venue left joins (none when
the join found no partner), the exact weather lookup result, and the
value stored for the row in the similarity lookup dict (none when no
candidate reached the 60 threshold; the dict holds an entry for every
unmatched city/month pair, so the get default of 1 is unreachable). -/
structure RecPerfIn where
  athlete_key : Option Nat
  event_key : Option Nat
  venue_key : Option Nat
  weather_exact : Option Nat
  weather_sim : Option Nat
deriving DecidableEq

/-- Reconciled performance row after filtering and key filling. -/
structure RecPerfOut where
  athlete_key : Nat
  event_key : Nat
  venue_key : Nat
  weather_key : Nat
deriving DecidableEq

/-- The weather key after the exact pass and the similarity pass. -/
def weather_key_assigned (r : RecPerfIn) : Option Nat :=
  match r.weather_exact with
  | some k => some k
  | none => r.weather_sim

/-- Model of the filtering and key assignment tail of
reconcile_performances in 02b_load_reconciled.py: rows whose weather
key is still null after both weather passes are removed by the
reconciled-layer weather dropna; rows missing the athlete or event key
are removed; a missing venue key is filled with the sentinel 1 (and the
weather fillna with 1 after the dropna can no longer fire). -/
def reconcile_performance_row (r : RecPerfIn) : Option RecPerfOut :=
  match weather_key_assigned r with
  | none => none
  | some w =>
    match r.athlete_key, r.event_key with
    | some a, some e =>
      some { athlete_key := a, event_key := e, venue_key := r.venue_key.getD 1, weather_key := w }
    | _, _ => none

/-- Venue dimension row as selected by load_fact_table (the query keeps
only rows with a present altitude between 0 and 4000). -/
structure VenueDimRow where
  venue_key : Nat
  altitude : ℚ
deriving DecidableEq

/-- Fact-stage join state of one performance row: the keys arrive
non-null from the reconciled layer; the dimension left joins contribute
the athlete gender, event name and unit and the weather temperature;
the venue inner join against the altitude-filtered dimension either
found a row or did not; the date left join yields an optional key. -/
structure FactIn where
  athlete_key : Nat
  event_key : Nat
  weather_key : Nat
  result_value : ℚ
  gender : Option Str
  event_name : Option Str
  measurement_unit : Option Str
  venueMatch : Option VenueDimRow
  temperature : Option ℚ
  date_key : Option Nat

/-- Fact table row with its computed measures. -/
structure FactOut where
  athlete_key : Nat
  event_key : Nat
  venue_key : Nat
  date_key : Nat
  weather_key : Nat
  performance_score : Option ℝ
  altitude_adjusted_result : ℚ
  temperature_impact_factor : ℚ

/-- Model of the row fate in load_fact_table of 04_load_facts.py: the
venue merge is an inner join, so a row without an altitude-bearing
venue dimension partner is dropped; the realism filter removes outlier
rows; the measures are computed; then the dropna on date_key removes
rows whose date did not resolve (the commented-out step that would have
filled date and venue keys with the sentinel 1 is disabled in the
source). -/
noncomputable def load_fact_row (r : FactIn) : Option FactOut :=
  match r.venueMatch with
  | none => none
  | some v =>
    if is_realistic_performance r.result_value r.event_name r.measurement_unit r.gender then
      match r.date_key with
      | none => none
      | some d =>
        some
          { athlete_key := r.athlete_key
            event_key := r.event_key
            venue_key := v.venue_key
            date_key := d
            weather_key := r.weather_key
            performance_score :=
              calculate_performance_score_enhanced r.result_value r.event_name
                r.measurement_unit r.gender
            altitude_adjusted_result :=
              calculate_altitude_adjustment r.result_value (some v.altitude) r.event_name
            temperature_impact_factor :=
              calculate_temperature_impact_factor r.temperature r.event_name }
    else none

/-- A word list is good when every word is nonempty and free of
whitespace characters (the shape str.split produces). -/
def goodWords (ws : List Str) : Prop := ∀ w ∈ ws, w ≠ [] ∧ ∀ c ∈ w, isWsB c = false

/-- Canonical whitespace form: the string is the single-space join of
some good word list.  Outputs of collapseWs have this shape and the
suffix-stripping loop preserves it. -/
def Canon (l : Str) : Prop := ∃ ws, goodWords ws ∧ l = unwords ws

/-!
Theorems.  Each claim of the specification is settled below; shared
helper lemmas come first.
-/

/-- C3: extract_distance maps Marathon to 42195 and the 4x400m relay to
400, the per-leg distance taken from the second numeric group rather
than a total.  Half Marathon, however, also yields 42195 and not the
claimed 21098: the special-case table is walked in insertion order, the
marathon key is tested first and is a substring of half marathon, so
the dedicated half-marathon entry of 21098 in the same table is dead. -/
theorem C3_extract_distance_values :
    extract_distance (enc "Marathon") = some 42195 ∧
    extract_distance (enc "Half Marathon") = some 42195 ∧
    extract_distance (enc "4x400m Relay") = some 400 := by
  refine ⟨by decide, by decide, by decide⟩

/-- C7: each of DNF, DQ, DNS, NM and the empty string is recognized by
parse_time_result as an explicit non-result, returning none rather than
zero or an exception, and the row carrying it is dropped by the
result-value cleaning filter, producing no output record. -/
theorem C7_non_result_tokens :
    (parse_time_result (enc "DNF") = none ∧ resultRowKept (enc "DNF") = false) ∧
    (parse_time_result (enc "DQ") = none ∧ resultRowKept (enc "DQ") = false) ∧
    (parse_time_result (enc "DNS") = none ∧ resultRowKept (enc "DNS") = false) ∧
    (parse_time_result (enc "NM") = none ∧ resultRowKept (enc "NM") = false) ∧
    (parse_time_result (enc "") = none ∧ resultRowKept (enc "") = false) := by
  decide

/-- C9 counterexample: on null input the athlete name normalizer does
not return the sentinel string Unknown; it returns None, propagating
the null. -/
theorem C9_null_counterexample :
    normalize_athlete_name none = none ∧ normalize_athlete_name none ≠ some (enc "Unknown") := by
  decide

/-- C9 as amended: of the two cited normalizers, only the city/country
cleaner maps null input to the sentinel Unknown; the athlete name
normalizer maps null input to None. -/
theorem C9_null_handling_amended :
    clean_city_names none = enc "Unknown" ∧ normalize_athlete_name none = none := by
  decide

/-- C10: in the cleaned gazetteer every surviving row carries the raw
altitude when present and the 100 m default when missing, the default
is categorized Sea Level, and a row with missing altitude is
indistinguishable from the same row with a measured altitude of 100. -/
theorem C10_missing_altitude_default (r : RawCity) :
    integrate_geographic_row { r with Altitude := none } =
      integrate_geographic_row { r with Altitude := some (enc "100") } ∧
    ∀ out, integrate_geographic_row r = some out →
      out.altitude = (safe_float_convert r.Altitude).getD 100 ∧
      (safe_float_convert r.Altitude = none → out.altitude_category = enc "Sea Level") := by
  constructor
  · have h100 : safe_float_convert (some (enc "100")) = some (100 : ℚ) := by decide
    unfold integrate_geographic_row
    rw [show ({ r with Altitude := some (enc "100") } : RawCity).Altitude = some (enc "100")
        from rfl, h100]
    rfl
  · intro out h
    unfold integrate_geographic_row at h
    split at h
    · split at h
      · cases h
        refine ⟨rfl, fun halt => ?_⟩
        rw [halt]
        show categorize_real_altitude ((none : Option ℚ).getD 100) = enc "Sea Level"
        decide
      · cases h
    · cases h

/-- C10 witness: a concrete row with valid coordinates and missing
altitude, instantiating the equality and the Sea Level conclusion. -/
theorem C10_missing_altitude_default_witness :
    (⟨enc "PARIS", enc "FRANCE", mkRat 4885 100, mkRat 235 100, 100, enc "Sea Level"⟩ :
        CleanCity).altitude =
      (safe_float_convert
        (⟨some (enc "Paris"), some (enc "France"), some (enc "48.85"), some (enc "2.35"),
          none⟩ : RawCity).Altitude).getD 100 ∧
    (safe_float_convert
        (⟨some (enc "Paris"), some (enc "France"), some (enc "48.85"), some (enc "2.35"),
          none⟩ : RawCity).Altitude = none →
      (⟨enc "PARIS", enc "FRANCE", mkRat 4885 100, mkRat 235 100, 100, enc "Sea Level"⟩ :
          CleanCity).altitude_category = enc "Sea Level") :=
  (C10_missing_altitude_default
    ⟨some (enc "Paris"), some (enc "France"), some (enc "48.85"), some (enc "2.35"), none⟩).2
    ⟨enc "PARIS", enc "FRANCE", mkRat 4885 100, mkRat 235 100, 100, enc "Sea Level"⟩
    (by decide)

/-- C6: for every finite temperature the impact factor equals the clamp
to the interval from 0.5 to 1.5 of 1 - abs (t - 11) * rate, with rate
0.001 for events in the Sprint, Jumps and Throws duration categories,
0.002 for Middle Distance and 0.004 for Distance, and the returned
factor always lies between 0.5 and 1.5. -/
theorem C6_temperature_impact_factor (t : ℚ) (e : Option Str) :
    (get_event_duration_category e = enc "Sprint" ∨
        get_event_duration_category e = enc "Jumps" ∨
        get_event_duration_category e = enc "Throws" →
      calculate_temperature_impact_factor (some t) e =
        max (mkRat 1 2) (min (mkRat 3 2) (1 - |t - 11| * mkRat 1 1000))) ∧
    (get_event_duration_category e = enc "Middle Distance" →
      calculate_temperature_impact_factor (some t) e =
        max (mkRat 1 2) (min (mkRat 3 2) (1 - |t - 11| * mkRat 2 1000))) ∧
    (get_event_duration_category e = enc "Distance" →
      calculate_temperature_impact_factor (some t) e =
        max (mkRat 1 2) (min (mkRat 3 2) (1 - |t - 11| * mkRat 4 1000))) ∧
    mkRat 1 2 ≤ calculate_temperature_impact_factor (some t) e ∧
    calculate_temperature_impact_factor (some t) e ≤ mkRat 3 2 := by
  refine ⟨?_, ?_, ?_, ?_, ?_⟩
  · intro h
    unfold calculate_temperature_impact_factor
    rcases h with h | h | h <;> rw [h]
    · rw [show temp_impact_rate (enc "Sprint") = mkRat 1 1000 from by decide]
    · rw [show temp_impact_rate (enc "Jumps") = mkRat 1 1000 from by decide]
    · rw [show temp_impact_rate (enc "Throws") = mkRat 1 1000 from by decide]
  · intro h
    unfold calculate_temperature_impact_factor
    rw [h, show temp_impact_rate (enc "Middle Distance") = mkRat 2 1000 from by decide]
  · intro h
    unfold calculate_temperature_impact_factor
    rw [h, show temp_impact_rate (enc "Distance") = mkRat 4 1000 from by decide]
  · exact le_max_left _ _
  · exact max_le (by decide) (min_le_left _ _)

/-- C6 witness: the Marathon is a Distance event, so its factor at 30
degrees is the clamped 1 - 19 * 0.004. -/
theorem C6_temperature_impact_factor_witness :
    calculate_temperature_impact_factor (some 30) (some (enc "Marathon")) =
      max (mkRat 1 2) (min (mkRat 3 2) (1 - |(30 : ℚ) - 11| * mkRat 4 1000)) :=
  (C6_temperature_impact_factor 30 (some (enc "Marathon"))).2.2.1 (by decide)

/-- C2: at an event and gender pair matching no coefficient entry,
neither exactly nor by partial name containment, the enhanced scoring
function does not return a legacy heuristic score: the legacy fallback
call is commented out in the source (while the adjacent comment still
says to use the legacy calculation), so the function falls off its
conditional chain and returns None, no score at all. -/
theorem C2_unmatched_event_returns_no_score :
    coeffsFor (enc "M") (enc "Foobar") = none ∧
    calculate_performance_score_enhanced 10 (some (enc "Foobar")) (some (enc "seconds"))
      (some (enc "M")) = none := by
  exact ⟨by decide, rfl⟩

/-- C8 counterexample: the venue Berlin (GER) has extraction confidence
75 under the confidence rules of the spec, below the 85 threshold, yet
against a gazetteer holding Berlin under the country name Germany the
exact city and country match fails (the code compares the two-letter
code DE to the country name) and the city-only fallback is still
applied, returning the Berlin row: no confidence gate exists. -/
theorem C8_low_confidence_fallback_counterexample :
    spec_extraction_confidence (enc "Berlin (GER)") = 75 ∧
    spec_extraction_confidence (enc "Berlin (GER)") < 85 ∧
    ([⟨enc "Berlin", enc "Germany", mkRat 5252 100, mkRat 134 10, 34, enc "Sea Level"⟩] :
        List GazRow).find?
        (fun r => gazCityClean r = venueCityClean (some (enc "Berlin (GER)")) ∧
          gazCountryClean r = venueCountryClean (some (enc "Berlin (GER)"))) = none ∧
    reconcile_venue_geo
        [⟨enc "Berlin", enc "Germany", mkRat 5252 100, mkRat 134 10, 34, enc "Sea Level"⟩]
        (some (enc "Berlin (GER)")) =
      some ⟨enc "Berlin", enc "Germany", mkRat 5252 100, mkRat 134 10, 34, enc "Sea Level"⟩ := by
  refine ⟨by decide, by decide, by decide, by decide⟩

/-- C8 as amended: extract_location_from_venue computes no confidence
value, and for every venue the exact city and country match leaves
unmatched the city-only fallback is attempted unconditionally,
whatever the venue looks like. -/
theorem C8_city_fallback_unconditional (gaz : List GazRow) (venue : Option Str)
    (h : gaz.find? (fun r => gazCityClean r = venueCityClean venue ∧
        gazCountryClean r = venueCountryClean venue) = none) :
    reconcile_venue_geo gaz venue =
      gaz.find? (fun r => gazCityClean r = venueCityClean venue) := by
  unfold reconcile_venue_geo
  rw [h]

/-- C8 witness: the unmatched Berlin (GER) venue receives exactly the
city-only lookup result. -/
theorem C8_city_fallback_unconditional_witness :
    reconcile_venue_geo
        [⟨enc "Berlin", enc "Germany", mkRat 5252 100, mkRat 134 10, 34, enc "Sea Level"⟩]
        (some (enc "Hometown Field")) =
      ([⟨enc "Berlin", enc "Germany", mkRat 5252 100, mkRat 134 10, 34, enc "Sea Level"⟩] :
          List GazRow).find?
        (fun r => gazCityClean r = venueCityClean (some (enc "Hometown Field"))) :=
  C8_city_fallback_unconditional _ _ (by decide)

/-- C1 counterexample: a fact-stage record that is complete and
realistic except for its missing date reference is dropped rather than
defaulted to the sentinel key 1, and a reconciled-stage record whose
weather matching failed both the exact and the similarity pass is
dropped rather than receiving the sentinel weather key. -/
theorem C1_sentinel_counterexample :
    load_fact_row
        { athlete_key := 5, event_key := 7, weather_key := 3, result_value := mkRat 98 10,
          gender := some (enc "M"), event_name := some (enc "100 Metres"),
          measurement_unit := some (enc "seconds"),
          venueMatch := some ⟨2, 34⟩, temperature := some 20, date_key := none } = none ∧
    reconcile_performance_row ⟨some 1, some 2, some 3, none, none⟩ = none := by
  exact ⟨rfl, by decide⟩

/-- C1 as amended: a record missing its athlete or event reference is
dropped at the reconciled layer, and a missing venue reference there
degrades to the sentinel key 1; but a record with no exact or
similarity weather match is dropped at the reconciled layer (the
similarity dict stores None for it, so the sentinel default is
unreachable), and at the fact stage records whose venue dimension
partner or date reference is missing are dropped as well, the sentinel
fill for venue and date being commented out in the source. -/
theorem C1_reference_handling (rec : RecPerfIn) (fr : FactIn) :
    ((rec.athlete_key = none ∨ rec.event_key = none) → reconcile_performance_row rec = none) ∧
    (∀ a e w, rec.athlete_key = some a → rec.event_key = some e →
      weather_key_assigned rec = some w →
      reconcile_performance_row rec = some ⟨a, e, rec.venue_key.getD 1, w⟩) ∧
    (weather_key_assigned rec = none → reconcile_performance_row rec = none) ∧
    (fr.venueMatch = none → load_fact_row fr = none) ∧
    (fr.date_key = none → load_fact_row fr = none) := by
  refine ⟨?_, ?_, ?_, ?_, ?_⟩
  · intro h
    unfold reconcile_performance_row
    cases hw : weather_key_assigned rec
    · rfl
    · rcases h with h | h
      · rw [h]
      · rw [h]
        cases rec.athlete_key <;> rfl
  · intro a e w ha he hww
    unfold reconcile_performance_row
    rw [hww, ha, he]
  · intro h
    unfold reconcile_performance_row
    rw [h]
  · intro h
    unfold load_fact_row
    rw [h]
  · intro h
    unfold load_fact_row
    rw [h]
    cases fr.venueMatch
    · rfl
    · split <;> try rfl
      split <;> rfl

/-- C1 witness: a reconciled record with both mandatory references but
no venue partner keeps its row with the sentinel venue key 1. -/
theorem C1_reference_handling_witness :
    reconcile_performance_row ⟨some 4, some 6, none, some 2, none⟩ = some ⟨4, 6, 1, 2⟩ :=
  (C1_reference_handling ⟨some 4, some 6, none, some 2, none⟩
      { athlete_key := 0, event_key := 0, weather_key := 0, result_value := 1,
        gender := none, event_name := none, measurement_unit := none,
        venueMatch := none, temperature := none, date_key := none }).2.1 4 6 2 rfl rfl rfl

/-- A nonnegative base raised to the rational power p/q is bounded by y
once the integer powers compare. -/
lemma rpow_le_of_pow_le {B y : ℝ} (p q : ℕ) (hq : 0 < q) (hB : 0 ≤ B) (hy : 0 ≤ y)
    (h : B ^ p ≤ y ^ q) : B ^ ((p : ℝ) / (q : ℝ)) ≤ y := by
  have hq' : (0:ℝ) < (q:ℝ) := Nat.cast_pos.2 hq
  have e1 : B ^ ((p : ℝ) / (q : ℝ)) = (B ^ p) ^ ((1:ℝ) / (q : ℝ)) := by
    rw [← Real.rpow_natCast B p, ← Real.rpow_mul hB]
    congr 1
    field_simp
  have e2 : (y ^ q) ^ ((1:ℝ) / (q : ℝ)) = y := by
    rw [← Real.rpow_natCast y q, ← Real.rpow_mul hy, mul_one_div, div_self (ne_of_gt hq'),
      Real.rpow_one]
  calc B ^ ((p : ℝ) / (q : ℝ)) = (B ^ p) ^ ((1:ℝ) / (q : ℝ)) := e1
    _ ≤ (y ^ q) ^ ((1:ℝ) / (q : ℝ)) := Real.rpow_le_rpow (pow_nonneg hB p) h (by positivity)
    _ = y := e2

lemma coeffBound1 :
    ((28.67 : ℚ) : ℝ) * ((18 : ℚ) : ℝ) ^ (((1.81 : ℚ)) : ℝ) * (1 / 10) ≤ 1400 := by
  have hc : (((1.81 : ℚ)) : ℝ) = (181 : ℝ) / (100 : ℝ) := by norm_num
  have hb : ((18 : ℚ) : ℝ) ^ ((181 : ℝ) / (100 : ℝ)) ≤ (191 : ℝ) := by
    apply rpow_le_of_pow_le 181 100 (by norm_num) (by norm_num) (by norm_num)
    norm_num
  rw [hc]
  nlinarith [hb, Real.rpow_nonneg (show (0:ℝ) ≤ ((18 : ℚ) : ℝ) by norm_num) ((181 : ℝ) / (100 : ℝ))]

lemma coeffBound2 :
    ((6.674 : ℚ) : ℝ) * ((38 : ℚ) : ℝ) ^ (((1.81 : ℚ)) : ℝ) * (1 / 10) ≤ 1400 := by
  have hc : (((1.81 : ℚ)) : ℝ) = (181 : ℝ) / (100 : ℝ) := by norm_num
  have hb : ((38 : ℚ) : ℝ) ^ ((181 : ℝ) / (100 : ℝ)) ≤ (738 : ℝ) := by
    apply rpow_le_of_pow_le 181 100 (by norm_num) (by norm_num) (by norm_num)
    norm_num
  rw [hc]
  nlinarith [hb, Real.rpow_nonneg (show (0:ℝ) ≤ ((38 : ℚ) : ℝ) by norm_num) ((181 : ℝ) / (100 : ℝ))]

lemma coeffBound3 :
    ((1.745 : ℚ) : ℝ) * ((82 : ℚ) : ℝ) ^ (((1.81 : ℚ)) : ℝ) * (1 / 10) ≤ 1400 := by
  have hc : (((1.81 : ℚ)) : ℝ) = (181 : ℝ) / (100 : ℝ) := by norm_num
  have hb : ((82 : ℚ) : ℝ) ^ ((181 : ℝ) / (100 : ℝ)) ≤ (2969 : ℝ) := by
    apply rpow_le_of_pow_le 181 100 (by norm_num) (by norm_num) (by norm_num)
    norm_num
  rw [hc]
  nlinarith [hb, Real.rpow_nonneg (show (0:ℝ) ≤ ((82 : ℚ) : ℝ) by norm_num) ((181 : ℝ) / (100 : ℝ))]

lemma coeffBound4 :
    ((0.1444 : ℚ) : ℝ) * ((254 : ℚ) : ℝ) ^ (((1.81 : ℚ)) : ℝ) * (1 / 10) ≤ 1400 := by
  have hc : (((1.81 : ℚ)) : ℝ) = (181 : ℝ) / (100 : ℝ) := by norm_num
  have hb : ((254 : ℚ) : ℝ) ^ ((181 : ℝ) / (100 : ℝ)) ≤ (22980 : ℝ) := by
    apply rpow_le_of_pow_le 181 100 (by norm_num) (by norm_num) (by norm_num)
    norm_num
  rw [hc]
  nlinarith [hb, Real.rpow_nonneg (show (0:ℝ) ≤ ((254 : ℚ) : ℝ) by norm_num) ((181 : ℝ) / (100 : ℝ))]

lemma coeffBound5 :
    ((0.0504 : ℚ) : ℝ) * ((480 : ℚ) : ℝ) ^ (((1.81 : ℚ)) : ℝ) * (1 / 10) ≤ 1400 := by
  have hc : (((1.81 : ℚ)) : ℝ) = (181 : ℝ) / (100 : ℝ) := by norm_num
  have hb : ((480 : ℚ) : ℝ) ^ ((181 : ℝ) / (100 : ℝ)) ≤ (72719 : ℝ) := by
    apply rpow_le_of_pow_le 181 100 (by norm_num) (by norm_num) (by norm_num)
    norm_num
  rw [hc]
  nlinarith [hb, Real.rpow_nonneg (show (0:ℝ) ≤ ((480 : ℚ) : ℝ) by norm_num) ((181 : ℝ) / (100 : ℝ))]

lemma coeffBound6 :
    ((0.00283 : ℚ) : ℝ) * ((2100 : ℚ) : ℝ) ^ (((1.81 : ℚ)) : ℝ) * (1 / 10) ≤ 1400 := by
  have hc : (((1.81 : ℚ)) : ℝ) = (181 : ℝ) / (100 : ℝ) := by norm_num
  have hb : ((2100 : ℚ) : ℝ) ^ ((181 : ℝ) / (100 : ℝ)) ≤ (1051519 : ℝ) := by
    apply rpow_le_of_pow_le 181 100 (by norm_num) (by norm_num) (by norm_num)
    norm_num
  rw [hc]
  nlinarith [hb, Real.rpow_nonneg (show (0:ℝ) ≤ ((2100 : ℚ) : ℝ) by norm_num) ((181 : ℝ) / (100 : ℝ))]

lemma coeffBound7 :
    ((0.0008436 : ℚ) : ℝ) * ((4200 : ℚ) : ℝ) ^ (((1.81 : ℚ)) : ℝ) * (1 / 10) ≤ 1400 := by
  have hc : (((1.81 : ℚ)) : ℝ) = (181 : ℝ) / (100 : ℝ) := by norm_num
  have hb : ((4200 : ℚ) : ℝ) ^ ((181 : ℝ) / (100 : ℝ)) ≤ (3687071 : ℝ) := by
    apply rpow_le_of_pow_le 181 100 (by norm_num) (by norm_num) (by norm_num)
    norm_num
  rw [hc]
  nlinarith [hb, Real.rpow_nonneg (show (0:ℝ) ≤ ((4200 : ℚ) : ℝ) by norm_num) ((181 : ℝ) / (100 : ℝ))]

lemma coeffBound8 :
    ((6.544 : ℚ) : ℝ) * ((28.5 : ℚ) : ℝ) ^ (((1.92 : ℚ)) : ℝ) * (1 / 10) ≤ 1400 := by
  have hc : (((1.92 : ℚ)) : ℝ) = (48 : ℝ) / (25 : ℝ) := by norm_num
  have hb : ((28.5 : ℚ) : ℝ) ^ ((48 : ℝ) / (25 : ℝ)) ≤ (634 : ℝ) := by
    apply rpow_le_of_pow_le 48 25 (by norm_num) (by norm_num) (by norm_num)
    norm_num
  rw [hc]
  nlinarith [hb, Real.rpow_nonneg (show (0:ℝ) ≤ ((28.5 : ℚ) : ℝ) by norm_num) ((48 : ℝ) / (25 : ℝ))]

lemma coeffBound9 :
    ((0.8722 : ℚ) : ℝ) * ((95.5 : ℚ) : ℝ) ^ (((1.88 : ℚ)) : ℝ) * (1 / 10) ≤ 1400 := by
  have hc : (((1.88 : ℚ)) : ℝ) = (47 : ℝ) / (25 : ℝ) := by norm_num
  have hb : ((95.5 : ℚ) : ℝ) ^ ((47 : ℝ) / (25 : ℝ)) ≤ (5383 : ℝ) := by
    apply rpow_le_of_pow_le 47 25 (by norm_num) (by norm_num) (by norm_num)
    norm_num
  rw [hc]
  nlinarith [hb, Real.rpow_nonneg (show (0:ℝ) ≤ ((95.5 : ℚ) : ℝ) by norm_num) ((47 : ℝ) / (25 : ℝ))]

lemma coeffBound10 :
    ((0.004711 : ℚ) : ℝ) * ((1254 : ℚ) : ℝ) ^ (((1.88 : ℚ)) : ℝ) * (1 / 10) ≤ 1400 := by
  have hc : (((1.88 : ℚ)) : ℝ) = (47 : ℝ) / (25 : ℝ) := by norm_num
  have hb : ((1254 : ℚ) : ℝ) ^ ((47 : ℝ) / (25 : ℝ)) ≤ (681396 : ℝ) := by
    apply rpow_le_of_pow_le 47 25 (by norm_num) (by norm_num) (by norm_num)
    norm_num
  rw [hc]
  nlinarith [hb, Real.rpow_nonneg (show (0:ℝ) ≤ ((1254 : ℚ) : ℝ) by norm_num) ((47 : ℝ) / (25 : ℝ))]

lemma coeffBound11 :
    ((625.1 : ℚ) : ℝ) * ((0.75 : ℚ) : ℝ) ^ (((1.4 : ℚ)) : ℝ) * (1 / 10) ≤ 1400 := by
  have hc : (((1.4 : ℚ)) : ℝ) = (7 : ℝ) / (5 : ℝ) := by norm_num
  have hb : ((0.75 : ℚ) : ℝ) ^ ((7 : ℝ) / (5 : ℝ)) ≤ (1 : ℝ) := by
    apply rpow_le_of_pow_le 7 5 (by norm_num) (by norm_num) (by norm_num)
    norm_num
  rw [hc]
  nlinarith [hb, Real.rpow_nonneg (show (0:ℝ) ≤ ((0.75 : ℚ) : ℝ) by norm_num) ((7 : ℝ) / (5 : ℝ))]

lemma coeffBound12 :
    ((79.42 : ℚ) : ℝ) * ((1.4 : ℚ) : ℝ) ^ (((1.4 : ℚ)) : ℝ) * (1 / 10) ≤ 1400 := by
  have hc : (((1.4 : ℚ)) : ℝ) = (7 : ℝ) / (5 : ℝ) := by norm_num
  have hb : ((1.4 : ℚ) : ℝ) ^ ((7 : ℝ) / (5 : ℝ)) ≤ (2 : ℝ) := by
    apply rpow_le_of_pow_le 7 5 (by norm_num) (by norm_num) (by norm_num)
    norm_num
  rw [hc]
  nlinarith [hb, Real.rpow_nonneg (show (0:ℝ) ≤ ((1.4 : ℚ) : ℝ) by norm_num) ((7 : ℝ) / (5 : ℝ))]

lemma coeffBound13 :
    ((27.37 : ℚ) : ℝ) * ((2.5 : ℚ) : ℝ) ^ (((1.4 : ℚ)) : ℝ) * (1 / 10) ≤ 1400 := by
  have hc : (((1.4 : ℚ)) : ℝ) = (7 : ℝ) / (5 : ℝ) := by norm_num
  have hb : ((2.5 : ℚ) : ℝ) ^ ((7 : ℝ) / (5 : ℝ)) ≤ (4 : ℝ) := by
    apply rpow_le_of_pow_le 7 5 (by norm_num) (by norm_num) (by norm_num)
    norm_num
  rw [hc]
  nlinarith [hb, Real.rpow_nonneg (show (0:ℝ) ≤ ((2.5 : ℚ) : ℝ) by norm_num) ((7 : ℝ) / (5 : ℝ))]

lemma coeffBound14 :
    ((142.2 : ℚ) : ℝ) * ((1 : ℚ) : ℝ) ^ (((1.35 : ℚ)) : ℝ) * (1 / 10) ≤ 1400 := by
  have hc : (((1.35 : ℚ)) : ℝ) = (27 : ℝ) / (20 : ℝ) := by norm_num
  have hb : ((1 : ℚ) : ℝ) ^ ((27 : ℝ) / (20 : ℝ)) ≤ (2 : ℝ) := by
    apply rpow_le_of_pow_le 27 20 (by norm_num) (by norm_num) (by norm_num)
    norm_num
  rw [hc]
  nlinarith [hb, Real.rpow_nonneg (show (0:ℝ) ≤ ((1 : ℚ) : ℝ) by norm_num) ((27 : ℝ) / (20 : ℝ))]

lemma coeffBound15 :
    ((51.8 : ℚ) : ℝ) * ((1.5 : ℚ) : ℝ) ^ (((1.05 : ℚ)) : ℝ) * (1 / 10) ≤ 1400 := by
  have hc : (((1.05 : ℚ)) : ℝ) = (21 : ℝ) / (20 : ℝ) := by norm_num
  have hb : ((1.5 : ℚ) : ℝ) ^ ((21 : ℝ) / (20 : ℝ)) ≤ (2 : ℝ) := by
    apply rpow_le_of_pow_le 21 20 (by norm_num) (by norm_num) (by norm_num)
    norm_num
  rw [hc]
  nlinarith [hb, Real.rpow_nonneg (show (0:ℝ) ≤ ((1.5 : ℚ) : ℝ) by norm_num) ((21 : ℝ) / (20 : ℝ))]

lemma coeffBound16 :
    ((12.28 : ℚ) : ℝ) * ((4 : ℚ) : ℝ) ^ (((1.1 : ℚ)) : ℝ) * (1 / 10) ≤ 1400 := by
  have hc : (((1.1 : ℚ)) : ℝ) = (11 : ℝ) / (10 : ℝ) := by norm_num
  have hb : ((4 : ℚ) : ℝ) ^ ((11 : ℝ) / (10 : ℝ)) ≤ (5 : ℝ) := by
    apply rpow_le_of_pow_le 11 10 (by norm_num) (by norm_num) (by norm_num)
    norm_num
  rw [hc]
  nlinarith [hb, Real.rpow_nonneg (show (0:ℝ) ≤ ((4 : ℚ) : ℝ) by norm_num) ((11 : ℝ) / (10 : ℝ))]

lemma coeffBound17 :
    ((13.17 : ℚ) : ℝ) * ((7 : ℚ) : ℝ) ^ (((1.05 : ℚ)) : ℝ) * (1 / 10) ≤ 1400 := by
  have hc : (((1.05 : ℚ)) : ℝ) = (21 : ℝ) / (20 : ℝ) := by norm_num
  have hb : ((7 : ℚ) : ℝ) ^ ((21 : ℝ) / (20 : ℝ)) ≤ (8 : ℝ) := by
    apply rpow_le_of_pow_le 21 20 (by norm_num) (by norm_num) (by norm_num)
    norm_num
  rw [hc]
  nlinarith [hb, Real.rpow_nonneg (show (0:ℝ) ≤ ((7 : ℚ) : ℝ) by norm_num) ((21 : ℝ) / (20 : ℝ))]

lemma coeffBound18 :
    ((7.58 : ℚ) : ℝ) * ((7 : ℚ) : ℝ) ^ (((1.15 : ℚ)) : ℝ) * (1 / 10) ≤ 1400 := by
  have hc : (((1.15 : ℚ)) : ℝ) = (23 : ℝ) / (20 : ℝ) := by norm_num
  have hb : ((7 : ℚ) : ℝ) ^ ((23 : ℝ) / (20 : ℝ)) ≤ (10 : ℝ) := by
    apply rpow_le_of_pow_le 23 20 (by norm_num) (by norm_num) (by norm_num)
    norm_num
  rw [hc]
  nlinarith [hb, Real.rpow_nonneg (show (0:ℝ) ≤ ((7 : ℚ) : ℝ) by norm_num) ((23 : ℝ) / (20 : ℝ))]

lemma coeffBound19 :
    ((2.139 : ℚ) : ℝ) * ((65 : ℚ) : ℝ) ^ (((1.81 : ℚ)) : ℝ) * (1 / 10) ≤ 1400 := by
  have hc : (((1.81 : ℚ)) : ℝ) = (181 : ℝ) / (100 : ℝ) := by norm_num
  have hb : ((65 : ℚ) : ℝ) ^ ((181 : ℝ) / (100 : ℝ)) ≤ (1950 : ℝ) := by
    apply rpow_le_of_pow_le 181 100 (by norm_num) (by norm_num) (by norm_num)
    norm_num
  rw [hc]
  nlinarith [hb, Real.rpow_nonneg (show (0:ℝ) ≤ ((65 : ℚ) : ℝ) by norm_num) ((181 : ℝ) / (100 : ℝ))]

lemma coeffBound20 :
    ((0.2414 : ℚ) : ℝ) * ((185 : ℚ) : ℝ) ^ (((1.81 : ℚ)) : ℝ) * (1 / 10) ≤ 1400 := by
  have hc : (((1.81 : ℚ)) : ℝ) = (181 : ℝ) / (100 : ℝ) := by norm_num
  have hb : ((185 : ℚ) : ℝ) ^ ((181 : ℝ) / (100 : ℝ)) ≤ (12948 : ℝ) := by
    apply rpow_le_of_pow_le 181 100 (by norm_num) (by norm_num) (by norm_num)
    norm_num
  rw [hc]
  nlinarith [hb, Real.rpow_nonneg (show (0:ℝ) ≤ ((185 : ℚ) : ℝ) by norm_num) ((181 : ℝ) / (100 : ℝ))]

lemma coeffBound21 :
    ((0.0601 : ℚ) : ℝ) * ((375 : ℚ) : ℝ) ^ (((1.81 : ℚ)) : ℝ) * (1 / 10) ≤ 1400 := by
  have hc : (((1.81 : ℚ)) : ℝ) = (181 : ℝ) / (100 : ℝ) := by norm_num
  have hb : ((375 : ℚ) : ℝ) ^ ((181 : ℝ) / (100 : ℝ)) ≤ (46516 : ℝ) := by
    apply rpow_le_of_pow_le 181 100 (by norm_num) (by norm_num) (by norm_num)
    norm_num
  rw [hc]
  nlinarith [hb, Real.rpow_nonneg (show (0:ℝ) ≤ ((375 : ℚ) : ℝ) by norm_num) ((181 : ℝ) / (100 : ℝ))]

lemma coeffBound22 :
    ((0.02174 : ℚ) : ℝ) * ((720 : ℚ) : ℝ) ^ (((1.81 : ℚ)) : ℝ) * (1 / 10) ≤ 1400 := by
  have hc : (((1.81 : ℚ)) : ℝ) = (181 : ℝ) / (100 : ℝ) := by norm_num
  have hb : ((720 : ℚ) : ℝ) ^ ((181 : ℝ) / (100 : ℝ)) ≤ (151486 : ℝ) := by
    apply rpow_le_of_pow_le 181 100 (by norm_num) (by norm_num) (by norm_num)
    norm_num
  rw [hc]
  nlinarith [hb, Real.rpow_nonneg (show (0:ℝ) ≤ ((720 : ℚ) : ℝ) by norm_num) ((181 : ℝ) / (100 : ℝ))]

lemma coeffBound23 :
    ((0.007944 : ℚ) : ℝ) * ((1200 : ℚ) : ℝ) ^ (((1.81 : ℚ)) : ℝ) * (1 / 10) ≤ 1400 := by
  have hc : (((1.81 : ℚ)) : ℝ) = (181 : ℝ) / (100 : ℝ) := by norm_num
  have hb : ((1200 : ℚ) : ℝ) ^ ((181 : ℝ) / (100 : ℝ)) ≤ (381873 : ℝ) := by
    apply rpow_le_of_pow_le 181 100 (by norm_num) (by norm_num) (by norm_num)
    norm_num
  rw [hc]
  nlinarith [hb, Real.rpow_nonneg (show (0:ℝ) ≤ ((1200 : ℚ) : ℝ) by norm_num) ((181 : ℝ) / (100 : ℝ))]

lemma coeffBound24 :
    ((0.04907 : ℚ) : ℝ) * ((500 : ℚ) : ℝ) ^ (((1.81 : ℚ)) : ℝ) * (1 / 10) ≤ 1400 := by
  have hc : (((1.81 : ℚ)) : ℝ) = (181 : ℝ) / (100 : ℝ) := by norm_num
  have hb : ((500 : ℚ) : ℝ) ^ ((181 : ℝ) / (100 : ℝ)) ≤ (78296 : ℝ) := by
    apply rpow_le_of_pow_le 181 100 (by norm_num) (by norm_num) (by norm_num)
    norm_num
  rw [hc]
  nlinarith [hb, Real.rpow_nonneg (show (0:ℝ) ≤ ((500 : ℚ) : ℝ) by norm_num) ((181 : ℝ) / (100 : ℝ))]

lemma coeffBound25 :
    ((0.013154 : ℚ) : ℝ) * ((1050 : ℚ) : ℝ) ^ (((1.81 : ℚ)) : ℝ) * (1 / 10) ≤ 1400 := by
  have hc : (((1.81 : ℚ)) : ℝ) = (181 : ℝ) / (100 : ℝ) := by norm_num
  have hb : ((1050 : ℚ) : ℝ) ^ ((181 : ℝ) / (100 : ℝ)) ≤ (299884 : ℝ) := by
    apply rpow_le_of_pow_le 181 100 (by norm_num) (by norm_num) (by norm_num)
    norm_num
  rw [hc]
  nlinarith [hb, Real.rpow_nonneg (show (0:ℝ) ≤ ((1050 : ℚ) : ℝ) by norm_num) ((181 : ℝ) / (100 : ℝ))]

lemma coeffBound26 :
    ((0.002768 : ℚ) : ℝ) * ((2100 : ℚ) : ℝ) ^ (((1.81 : ℚ)) : ℝ) * (1 / 10) ≤ 1400 := by
  have hc : (((1.81 : ℚ)) : ℝ) = (181 : ℝ) / (100 : ℝ) := by norm_num
  have hb : ((2100 : ℚ) : ℝ) ^ ((181 : ℝ) / (100 : ℝ)) ≤ (1051519 : ℝ) := by
    apply rpow_le_of_pow_le 181 100 (by norm_num) (by norm_num) (by norm_num)
    norm_num
  rw [hc]
  nlinarith [hb, Real.rpow_nonneg (show (0:ℝ) ≤ ((2100 : ℚ) : ℝ) by norm_num) ((181 : ℝ) / (100 : ℝ))]

lemma coeffBound27 :
    ((0.0008375 : ℚ) : ℝ) * ((4200 : ℚ) : ℝ) ^ (((1.81 : ℚ)) : ℝ) * (1 / 10) ≤ 1400 := by
  have hc : (((1.81 : ℚ)) : ℝ) = (181 : ℝ) / (100 : ℝ) := by norm_num
  have hb : ((4200 : ℚ) : ℝ) ^ ((181 : ℝ) / (100 : ℝ)) ≤ (3687071 : ℝ) := by
    apply rpow_le_of_pow_le 181 100 (by norm_num) (by norm_num) (by norm_num)
    norm_num
  rw [hc]
  nlinarith [hb, Real.rpow_nonneg (show (0:ℝ) ≤ ((4200 : ℚ) : ℝ) by norm_num) ((181 : ℝ) / (100 : ℝ))]

lemma coeffBound28 :
    ((0.000407 : ℚ) : ℝ) * ((6300 : ℚ) : ℝ) ^ (((1.81 : ℚ)) : ℝ) * (1 / 10) ≤ 1400 := by
  have hc : (((1.81 : ℚ)) : ℝ) = (181 : ℝ) / (100 : ℝ) := by norm_num
  have hb : ((6300 : ℚ) : ℝ) ^ ((181 : ℝ) / (100 : ℝ)) ≤ (7680802 : ℝ) := by
    apply rpow_le_of_pow_le 181 100 (by norm_num) (by norm_num) (by norm_num)
    norm_num
  rw [hc]
  nlinarith [hb, Real.rpow_nonneg (show (0:ℝ) ≤ ((6300 : ℚ) : ℝ) by norm_num) ((181 : ℝ) / (100 : ℝ))]

lemma coeffBound29 :
    ((0.0002434 : ℚ) : ℝ) * ((8400 : ℚ) : ℝ) ^ (((1.81 : ℚ)) : ℝ) * (1 / 10) ≤ 1400 := by
  have hc : (((1.81 : ℚ)) : ℝ) = (181 : ℝ) / (100 : ℝ) := by norm_num
  have hb : ((8400 : ℚ) : ℝ) ^ ((181 : ℝ) / (100 : ℝ)) ≤ (12928427 : ℝ) := by
    apply rpow_le_of_pow_le 181 100 (by norm_num) (by norm_num) (by norm_num)
    norm_num
  rw [hc]
  nlinarith [hb, Real.rpow_nonneg (show (0:ℝ) ≤ ((8400 : ℚ) : ℝ) by norm_num) ((181 : ℝ) / (100 : ℝ))]

lemma coeffBound30 :
    ((0.00143 : ℚ) : ℝ) * ((5400 : ℚ) : ℝ) ^ (((1.81 : ℚ)) : ℝ) * (1 / 10) ≤ 1400 := by
  have hc : (((1.81 : ℚ)) : ℝ) = (181 : ℝ) / (100 : ℝ) := by norm_num
  have hb : ((5400 : ℚ) : ℝ) ^ ((181 : ℝ) / (100 : ℝ)) ≤ (5810760 : ℝ) := by
    apply rpow_le_of_pow_le 181 100 (by norm_num) (by norm_num) (by norm_num)
    norm_num
  rw [hc]
  nlinarith [hb, Real.rpow_nonneg (show (0:ℝ) ≤ ((5400 : ℚ) : ℝ) by norm_num) ((181 : ℝ) / (100 : ℝ))]

lemma coeffBound31 :
    ((0.0004865 : ℚ) : ℝ) * ((10800 : ℚ) : ℝ) ^ (((1.81 : ℚ)) : ℝ) * (1 / 10) ≤ 1400 := by
  have hc : (((1.81 : ℚ)) : ℝ) = (181 : ℝ) / (100 : ℝ) := by norm_num
  have hb : ((10800 : ℚ) : ℝ) ^ ((181 : ℝ) / (100 : ℝ)) ≤ (20374979 : ℝ) := by
    apply rpow_le_of_pow_le 181 100 (by norm_num) (by norm_num) (by norm_num)
    norm_num
  rw [hc]
  nlinarith [hb, Real.rpow_nonneg (show (0:ℝ) ≤ ((10800 : ℚ) : ℝ) by norm_num) ((181 : ℝ) / (100 : ℝ))]

lemma coeffBound32 :
    ((0.0003 : ℚ) : ℝ) * ((7200 : ℚ) : ℝ) ^ (((1.81 : ℚ)) : ℝ) * (1 / 10) ≤ 1400 := by
  have hc : (((1.81 : ℚ)) : ℝ) = (181 : ℝ) / (100 : ℝ) := by norm_num
  have hb : ((7200 : ℚ) : ℝ) ^ ((181 : ℝ) / (100 : ℝ)) ≤ (9780747 : ℝ) := by
    apply rpow_le_of_pow_le 181 100 (by norm_num) (by norm_num) (by norm_num)
    norm_num
  rw [hc]
  nlinarith [hb, Real.rpow_nonneg (show (0:ℝ) ≤ ((7200 : ℚ) : ℝ) by norm_num) ((181 : ℝ) / (100 : ℝ))]

lemma coeffBound33 :
    ((0.003503 : ℚ) : ℝ) * ((1800 : ℚ) : ℝ) ^ (((1.81 : ℚ)) : ℝ) * (1 / 10) ≤ 1400 := by
  have hc : (((1.81 : ℚ)) : ℝ) = (181 : ℝ) / (100 : ℝ) := by norm_num
  have hb : ((1800 : ℚ) : ℝ) ^ ((181 : ℝ) / (100 : ℝ)) ≤ (795506 : ℝ) := by
    apply rpow_le_of_pow_le 181 100 (by norm_num) (by norm_num) (by norm_num)
    norm_num
  rw [hc]
  nlinarith [hb, Real.rpow_nonneg (show (0:ℝ) ≤ ((1800 : ℚ) : ℝ) by norm_num) ((181 : ℝ) / (100 : ℝ))]

lemma coeffBound34 :
    ((0.001396 : ℚ) : ℝ) * ((3000 : ℚ) : ℝ) ^ (((1.81 : ℚ)) : ℝ) * (1 / 10) ≤ 1400 := by
  have hc : (((1.81 : ℚ)) : ℝ) = (181 : ℝ) / (100 : ℝ) := by norm_num
  have hb : ((3000 : ℚ) : ℝ) ^ ((181 : ℝ) / (100 : ℝ)) ≤ (2005348 : ℝ) := by
    apply rpow_le_of_pow_le 181 100 (by norm_num) (by norm_num) (by norm_num)
    norm_num
  rw [hc]
  nlinarith [hb, Real.rpow_nonneg (show (0:ℝ) ≤ ((3000 : ℚ) : ℝ) by norm_num) ((181 : ℝ) / (100 : ℝ))]

lemma coeffBound35 :
    ((0.0004205 : ℚ) : ℝ) * ((6000 : ℚ) : ℝ) ^ (((1.81 : ℚ)) : ℝ) * (1 / 10) ≤ 1400 := by
  have hc : (((1.81 : ℚ)) : ℝ) = (181 : ℝ) / (100 : ℝ) := by norm_num
  have hb : ((6000 : ℚ) : ℝ) ^ ((181 : ℝ) / (100 : ℝ)) ≤ (7031597 : ℝ) := by
    apply rpow_le_of_pow_le 181 100 (by norm_num) (by norm_num) (by norm_num)
    norm_num
  rw [hc]
  nlinarith [hb, Real.rpow_nonneg (show (0:ℝ) ≤ ((6000 : ℚ) : ℝ) by norm_num) ((181 : ℝ) / (100 : ℝ))]

lemma coeffBound36 :
    ((0.0001251 : ℚ) : ℝ) * ((12000 : ℚ) : ℝ) ^ (((1.81 : ℚ)) : ℝ) * (1 / 10) ≤ 1400 := by
  have hc : (((1.81 : ℚ)) : ℝ) = (181 : ℝ) / (100 : ℝ) := by norm_num
  have hb : ((12000 : ℚ) : ℝ) ^ ((181 : ℝ) / (100 : ℝ)) ≤ (24655751 : ℝ) := by
    apply rpow_le_of_pow_le 181 100 (by norm_num) (by norm_num) (by norm_num)
    norm_num
  rw [hc]
  nlinarith [hb, Real.rpow_nonneg (show (0:ℝ) ≤ ((12000 : ℚ) : ℝ) by norm_num) ((181 : ℝ) / (100 : ℝ))]

lemma coeffBound37 :
    ((0.00139 : ℚ) : ℝ) * ((3000 : ℚ) : ℝ) ^ (((1.81 : ℚ)) : ℝ) * (1 / 10) ≤ 1400 := by
  have hc : (((1.81 : ℚ)) : ℝ) = (181 : ℝ) / (100 : ℝ) := by norm_num
  have hb : ((3000 : ℚ) : ℝ) ^ ((181 : ℝ) / (100 : ℝ)) ≤ (2005348 : ℝ) := by
    apply rpow_le_of_pow_le 181 100 (by norm_num) (by norm_num) (by norm_num)
    norm_num
  rw [hc]
  nlinarith [hb, Real.rpow_nonneg (show (0:ℝ) ≤ ((3000 : ℚ) : ℝ) by norm_num) ((181 : ℝ) / (100 : ℝ))]

lemma coeffBound38 :
    ((0.0004214 : ℚ) : ℝ) * ((6000 : ℚ) : ℝ) ^ (((1.81 : ℚ)) : ℝ) * (1 / 10) ≤ 1400 := by
  have hc : (((1.81 : ℚ)) : ℝ) = (181 : ℝ) / (100 : ℝ) := by norm_num
  have hb : ((6000 : ℚ) : ℝ) ^ ((181 : ℝ) / (100 : ℝ)) ≤ (7031597 : ℝ) := by
    apply rpow_le_of_pow_le 181 100 (by norm_num) (by norm_num) (by norm_num)
    norm_num
  rw [hc]
  nlinarith [hb, Real.rpow_nonneg (show (0:ℝ) ≤ ((6000 : ℚ) : ℝ) by norm_num) ((181 : ℝ) / (100 : ℝ))]

lemma coeffBound39 :
    ((0.0001255 : ℚ) : ℝ) * ((12000 : ℚ) : ℝ) ^ (((1.81 : ℚ)) : ℝ) * (1 / 10) ≤ 1400 := by
  have hc : (((1.81 : ℚ)) : ℝ) = (181 : ℝ) / (100 : ℝ) := by norm_num
  have hb : ((12000 : ℚ) : ℝ) ^ ((181 : ℝ) / (100 : ℝ)) ≤ (24655751 : ℝ) := by
    apply rpow_le_of_pow_le 181 100 (by norm_num) (by norm_num) (by norm_num)
    norm_num
  rw [hc]
  nlinarith [hb, Real.rpow_nonneg (show (0:ℝ) ≤ ((12000 : ℚ) : ℝ) by norm_num) ((181 : ℝ) / (100 : ℝ))]

lemma coeffBound40 :
    ((6.34e-05 : ℚ) : ℝ) * ((18000 : ℚ) : ℝ) ^ (((1.81 : ℚ)) : ℝ) * (1 / 10) ≤ 1400 := by
  have hc : (((1.81 : ℚ)) : ℝ) = (181 : ℝ) / (100 : ℝ) := by norm_num
  have hb : ((18000 : ℚ) : ℝ) ^ ((181 : ℝ) / (100 : ℝ)) ≤ (51362175 : ℝ) := by
    apply rpow_le_of_pow_le 181 100 (by norm_num) (by norm_num) (by norm_num)
    norm_num
  rw [hc]
  nlinarith [hb, Real.rpow_nonneg (show (0:ℝ) ≤ ((18000 : ℚ) : ℝ) by norm_num) ((181 : ℝ) / (100 : ℝ))]

lemma coeffBound41 :
    ((4.824e-05 : ℚ) : ℝ) * ((21000 : ℚ) : ℝ) ^ (((1.81 : ℚ)) : ℝ) * (1 / 10) ≤ 1400 := by
  have hc : (((1.81 : ℚ)) : ℝ) = (181 : ℝ) / (100 : ℝ) := by norm_num
  have hb : ((21000 : ℚ) : ℝ) ^ ((181 : ℝ) / (100 : ℝ)) ≤ (67891765 : ℝ) := by
    apply rpow_le_of_pow_le 181 100 (by norm_num) (by norm_num) (by norm_num)
    norm_num
  rw [hc]
  nlinarith [hb, Real.rpow_nonneg (show (0:ℝ) ≤ ((21000 : ℚ) : ℝ) by norm_num) ((181 : ℝ) / (100 : ℝ))]

lemma coeffBound42 :
    ((2.723e-05 : ℚ) : ℝ) * ((30000 : ℚ) : ℝ) ^ (((1.81 : ℚ)) : ℝ) * (1 / 10) ≤ 1400 := by
  have hc : (((1.81 : ℚ)) : ℝ) = (181 : ℝ) / (100 : ℝ) := by norm_num
  have hb : ((30000 : ℚ) : ℝ) ^ ((181 : ℝ) / (100 : ℝ)) ≤ (129476110 : ℝ) := by
    apply rpow_le_of_pow_le 181 100 (by norm_num) (by norm_num) (by norm_num)
    norm_num
  rw [hc]
  nlinarith [hb, Real.rpow_nonneg (show (0:ℝ) ≤ ((30000 : ℚ) : ℝ) by norm_num) ((181 : ℝ) / (100 : ℝ))]

lemma coeffBound43 :
    ((18.6 : ℚ) : ℝ) * ((21 : ℚ) : ℝ) ^ (((1.81 : ℚ)) : ℝ) * (1 / 10) ≤ 1400 := by
  have hc : (((1.81 : ℚ)) : ℝ) = (181 : ℝ) / (100 : ℝ) := by norm_num
  have hb : ((21 : ℚ) : ℝ) ^ ((181 : ℝ) / (100 : ℝ)) ≤ (253 : ℝ) := by
    apply rpow_le_of_pow_le 181 100 (by norm_num) (by norm_num) (by norm_num)
    norm_num
  rw [hc]
  nlinarith [hb, Real.rpow_nonneg (show (0:ℝ) ≤ ((21 : ℚ) : ℝ) by norm_num) ((181 : ℝ) / (100 : ℝ))]

lemma coeffBound44 :
    ((5.217 : ℚ) : ℝ) * ((42.5 : ℚ) : ℝ) ^ (((1.81 : ℚ)) : ℝ) * (1 / 10) ≤ 1400 := by
  have hc : (((1.81 : ℚ)) : ℝ) = (181 : ℝ) / (100 : ℝ) := by norm_num
  have hb : ((42.5 : ℚ) : ℝ) ^ ((181 : ℝ) / (100 : ℝ)) ≤ (904 : ℝ) := by
    apply rpow_le_of_pow_le 181 100 (by norm_num) (by norm_num) (by norm_num)
    norm_num
  rw [hc]
  nlinarith [hb, Real.rpow_nonneg (show (0:ℝ) ≤ ((42.5 : ℚ) : ℝ) by norm_num) ((181 : ℝ) / (100 : ℝ))]

lemma coeffBound45 :
    ((1.377 : ℚ) : ℝ) * ((91.7 : ℚ) : ℝ) ^ (((1.81 : ℚ)) : ℝ) * (1 / 10) ≤ 1400 := by
  have hc : (((1.81 : ℚ)) : ℝ) = (181 : ℝ) / (100 : ℝ) := by norm_num
  have hb : ((91.7 : ℚ) : ℝ) ^ ((181 : ℝ) / (100 : ℝ)) ≤ (3635 : ℝ) := by
    apply rpow_le_of_pow_le 181 100 (by norm_num) (by norm_num) (by norm_num)
    norm_num
  rw [hc]
  nlinarith [hb, Real.rpow_nonneg (show (0:ℝ) ≤ ((91.7 : ℚ) : ℝ) by norm_num) ((181 : ℝ) / (100 : ℝ))]

lemma coeffBound46 :
    ((0.115936 : ℚ) : ℝ) * ((285 : ℚ) : ℝ) ^ (((1.81 : ℚ)) : ℝ) * (1 / 10) ≤ 1400 := by
  have hc : (((1.81 : ℚ)) : ℝ) = (181 : ℝ) / (100 : ℝ) := by norm_num
  have hb : ((285 : ℚ) : ℝ) ^ ((181 : ℝ) / (100 : ℝ)) ≤ (28306 : ℝ) := by
    apply rpow_le_of_pow_le 181 100 (by norm_num) (by norm_num) (by norm_num)
    norm_num
  rw [hc]
  nlinarith [hb, Real.rpow_nonneg (show (0:ℝ) ≤ ((285 : ℚ) : ℝ) by norm_num) ((181 : ℝ) / (100 : ℝ))]

lemma coeffBound47 :
    ((0.04106 : ℚ) : ℝ) * ((535 : ℚ) : ℝ) ^ (((1.81 : ℚ)) : ℝ) * (1 / 10) ≤ 1400 := by
  have hc : (((1.81 : ℚ)) : ℝ) = (181 : ℝ) / (100 : ℝ) := by norm_num
  have hb : ((535 : ℚ) : ℝ) ^ ((181 : ℝ) / (100 : ℝ)) ≤ (88496 : ℝ) := by
    apply rpow_le_of_pow_le 181 100 (by norm_num) (by norm_num) (by norm_num)
    norm_num
  rw [hc]
  nlinarith [hb, Real.rpow_nonneg (show (0:ℝ) ≤ ((535 : ℚ) : ℝ) by norm_num) ((181 : ℝ) / (100 : ℝ))]

lemma coeffBound48 :
    ((0.00213 : ℚ) : ℝ) * ((2400 : ℚ) : ℝ) ^ (((1.81 : ℚ)) : ℝ) * (1 / 10) ≤ 1400 := by
  have hc : (((1.81 : ℚ)) : ℝ) = (181 : ℝ) / (100 : ℝ) := by norm_num
  have hb : ((2400 : ℚ) : ℝ) ^ ((181 : ℝ) / (100 : ℝ)) ≤ (1339006 : ℝ) := by
    apply rpow_le_of_pow_le 181 100 (by norm_num) (by norm_num) (by norm_num)
    norm_num
  rw [hc]
  nlinarith [hb, Real.rpow_nonneg (show (0:ℝ) ≤ ((2400 : ℚ) : ℝ) by norm_num) ((181 : ℝ) / (100 : ℝ))]

lemma coeffBound49 :
    ((0.00064 : ℚ) : ℝ) * ((4800 : ℚ) : ℝ) ^ (((1.81 : ℚ)) : ℝ) * (1 / 10) ≤ 1400 := by
  have hc : (((1.81 : ℚ)) : ℝ) = (181 : ℝ) / (100 : ℝ) := by norm_num
  have hb : ((4800 : ℚ) : ℝ) ^ ((181 : ℝ) / (100 : ℝ)) ≤ (4695122 : ℝ) := by
    apply rpow_le_of_pow_le 181 100 (by norm_num) (by norm_num) (by norm_num)
    norm_num
  rw [hc]
  nlinarith [hb, Real.rpow_nonneg (show (0:ℝ) ≤ ((4800 : ℚ) : ℝ) by norm_num) ((181 : ℝ) / (100 : ℝ))]

lemma coeffBound50 :
    ((9.31 : ℚ) : ℝ) * ((26.7 : ℚ) : ℝ) ^ (((1.835 : ℚ)) : ℝ) * (1 / 10) ≤ 1400 := by
  have hc : (((1.835 : ℚ)) : ℝ) = (367 : ℝ) / (200 : ℝ) := by norm_num
  have hb : ((26.7 : ℚ) : ℝ) ^ ((367 : ℝ) / (200 : ℝ)) ≤ (423 : ℝ) := by
    apply rpow_le_of_pow_le 367 200 (by norm_num) (by norm_num) (by norm_num)
    norm_num
  rw [hc]
  nlinarith [hb, Real.rpow_nonneg (show (0:ℝ) ≤ ((26.7 : ℚ) : ℝ) by norm_num) ((367 : ℝ) / (200 : ℝ))]

lemma coeffBound51 :
    ((0.671 : ℚ) : ℝ) * ((107 : ℚ) : ℝ) ^ (((1.88 : ℚ)) : ℝ) * (1 / 10) ≤ 1400 := by
  have hc : (((1.88 : ℚ)) : ℝ) = (47 : ℝ) / (25 : ℝ) := by norm_num
  have hb : ((107 : ℚ) : ℝ) ^ ((47 : ℝ) / (25 : ℝ)) ≤ (6666 : ℝ) := by
    apply rpow_le_of_pow_le 47 25 (by norm_num) (by norm_num) (by norm_num)
    norm_num
  rw [hc]
  nlinarith [hb, Real.rpow_nonneg (show (0:ℝ) ≤ ((107 : ℚ) : ℝ) by norm_num) ((47 : ℝ) / (25 : ℝ))]

lemma coeffBound52 :
    ((0.003303 : ℚ) : ℝ) * ((1465 : ℚ) : ℝ) ^ (((1.88 : ℚ)) : ℝ) * (1 / 10) ≤ 1400 := by
  have hc : (((1.88 : ℚ)) : ℝ) = (47 : ℝ) / (25 : ℝ) := by norm_num
  have hb : ((1465 : ℚ) : ℝ) ^ ((47 : ℝ) / (25 : ℝ)) ≤ (912799 : ℝ) := by
    apply rpow_le_of_pow_le 47 25 (by norm_num) (by norm_num) (by norm_num)
    norm_num
  rw [hc]
  nlinarith [hb, Real.rpow_nonneg (show (0:ℝ) ≤ ((1465 : ℚ) : ℝ) by norm_num) ((47 : ℝ) / (25 : ℝ))]

lemma coeffBound53 :
    ((1.789 : ℚ) : ℝ) * ((72 : ℚ) : ℝ) ^ (((1.81 : ℚ)) : ℝ) * (1 / 10) ≤ 1400 := by
  have hc : (((1.81 : ℚ)) : ℝ) = (181 : ℝ) / (100 : ℝ) := by norm_num
  have hb : ((72 : ℚ) : ℝ) ^ ((181 : ℝ) / (100 : ℝ)) ≤ (2347 : ℝ) := by
    apply rpow_le_of_pow_le 181 100 (by norm_num) (by norm_num) (by norm_num)
    norm_num
  rw [hc]
  nlinarith [hb, Real.rpow_nonneg (show (0:ℝ) ≤ ((72 : ℚ) : ℝ) by norm_num) ((181 : ℝ) / (100 : ℝ))]

lemma coeffBound54 :
    ((0.1903 : ℚ) : ℝ) * ((210 : ℚ) : ℝ) ^ (((1.81 : ℚ)) : ℝ) * (1 / 10) ≤ 1400 := by
  have hc : (((1.81 : ℚ)) : ℝ) = (181 : ℝ) / (100 : ℝ) := by norm_num
  have hb : ((210 : ℚ) : ℝ) ^ ((181 : ℝ) / (100 : ℝ)) ≤ (16287 : ℝ) := by
    apply rpow_le_of_pow_le 181 100 (by norm_num) (by norm_num) (by norm_num)
    norm_num
  rw [hc]
  nlinarith [hb, Real.rpow_nonneg (show (0:ℝ) ≤ ((210 : ℚ) : ℝ) by norm_num) ((181 : ℝ) / (100 : ℝ))]

lemma coeffBound55 :
    ((0.04778 : ℚ) : ℝ) * ((425 : ℚ) : ℝ) ^ (((1.81 : ℚ)) : ℝ) * (1 / 10) ≤ 1400 := by
  have hc : (((1.81 : ℚ)) : ℝ) = (181 : ℝ) / (100 : ℝ) := by norm_num
  have hb : ((425 : ℚ) : ℝ) ^ ((181 : ℝ) / (100 : ℝ)) ≤ (58343 : ℝ) := by
    apply rpow_le_of_pow_le 181 100 (by norm_num) (by norm_num) (by norm_num)
    norm_num
  rw [hc]
  nlinarith [hb, Real.rpow_nonneg (show (0:ℝ) ≤ ((425 : ℚ) : ℝ) by norm_num) ((181 : ℝ) / (100 : ℝ))]

lemma coeffBound56 :
    ((0.01626 : ℚ) : ℝ) * ((820 : ℚ) : ℝ) ^ (((1.81 : ℚ)) : ℝ) * (1 / 10) ≤ 1400 := by
  have hc : (((1.81 : ℚ)) : ℝ) = (181 : ℝ) / (100 : ℝ) := by norm_num
  have hb : ((820 : ℚ) : ℝ) ^ ((181 : ℝ) / (100 : ℝ)) ≤ (191692 : ℝ) := by
    apply rpow_le_of_pow_le 181 100 (by norm_num) (by norm_num) (by norm_num)
    norm_num
  rw [hc]
  nlinarith [hb, Real.rpow_nonneg (show (0:ℝ) ≤ ((820 : ℚ) : ℝ) by norm_num) ((181 : ℝ) / (100 : ℝ))]

lemma coeffBound57 :
    ((0.005886 : ℚ) : ℝ) * ((1380 : ℚ) : ℝ) ^ (((1.81 : ℚ)) : ℝ) * (1 / 10) ≤ 1400 := by
  have hc : (((1.81 : ℚ)) : ℝ) = (181 : ℝ) / (100 : ℝ) := by norm_num
  have hb : ((1380 : ℚ) : ℝ) ^ ((181 : ℝ) / (100 : ℝ)) ≤ (491792 : ℝ) := by
    apply rpow_le_of_pow_le 181 100 (by norm_num) (by norm_num) (by norm_num)
    norm_num
  rw [hc]
  nlinarith [hb, Real.rpow_nonneg (show (0:ℝ) ≤ ((1380 : ℚ) : ℝ) by norm_num) ((181 : ℝ) / (100 : ℝ))]

lemma coeffBound58 :
    ((0.03708 : ℚ) : ℝ) * ((570 : ℚ) : ℝ) ^ (((1.81 : ℚ)) : ℝ) * (1 / 10) ≤ 1400 := by
  have hc : (((1.81 : ℚ)) : ℝ) = (181 : ℝ) / (100 : ℝ) := by norm_num
  have hb : ((570 : ℚ) : ℝ) ^ ((181 : ℝ) / (100 : ℝ)) ≤ (99251 : ℝ) := by
    apply rpow_le_of_pow_le 181 100 (by norm_num) (by norm_num) (by norm_num)
    norm_num
  rw [hc]
  nlinarith [hb, Real.rpow_nonneg (show (0:ℝ) ≤ ((570 : ℚ) : ℝ) by norm_num) ((181 : ℝ) / (100 : ℝ))]

lemma coeffBound59 :
    ((0.00972 : ℚ) : ℝ) * ((1200 : ℚ) : ℝ) ^ (((1.81 : ℚ)) : ℝ) * (1 / 10) ≤ 1400 := by
  have hc : (((1.81 : ℚ)) : ℝ) = (181 : ℝ) / (100 : ℝ) := by norm_num
  have hb : ((1200 : ℚ) : ℝ) ^ ((181 : ℝ) / (100 : ℝ)) ≤ (381873 : ℝ) := by
    apply rpow_le_of_pow_le 181 100 (by norm_num) (by norm_num) (by norm_num)
    norm_num
  rw [hc]
  nlinarith [hb, Real.rpow_nonneg (show (0:ℝ) ≤ ((1200 : ℚ) : ℝ) by norm_num) ((181 : ℝ) / (100 : ℝ))]

lemma coeffBound60 :
    ((0.002119 : ℚ) : ℝ) * ((2400 : ℚ) : ℝ) ^ (((1.81 : ℚ)) : ℝ) * (1 / 10) ≤ 1400 := by
  have hc : (((1.81 : ℚ)) : ℝ) = (181 : ℝ) / (100 : ℝ) := by norm_num
  have hb : ((2400 : ℚ) : ℝ) ^ ((181 : ℝ) / (100 : ℝ)) ≤ (1339006 : ℝ) := by
    apply rpow_le_of_pow_le 181 100 (by norm_num) (by norm_num) (by norm_num)
    norm_num
  rw [hc]
  nlinarith [hb, Real.rpow_nonneg (show (0:ℝ) ≤ ((2400 : ℚ) : ℝ) by norm_num) ((181 : ℝ) / (100 : ℝ))]

lemma coeffBound61 :
    ((0.000641 : ℚ) : ℝ) * ((4800 : ℚ) : ℝ) ^ (((1.81 : ℚ)) : ℝ) * (1 / 10) ≤ 1400 := by
  have hc : (((1.81 : ℚ)) : ℝ) = (181 : ℝ) / (100 : ℝ) := by norm_num
  have hb : ((4800 : ℚ) : ℝ) ^ ((181 : ℝ) / (100 : ℝ)) ≤ (4695122 : ℝ) := by
    apply rpow_le_of_pow_le 181 100 (by norm_num) (by norm_num) (by norm_num)
    norm_num
  rw [hc]
  nlinarith [hb, Real.rpow_nonneg (show (0:ℝ) ≤ ((4800 : ℚ) : ℝ) by norm_num) ((181 : ℝ) / (100 : ℝ))]

lemma coeffBound62 :
    ((0.0003061 : ℚ) : ℝ) * ((7200 : ℚ) : ℝ) ^ (((1.81 : ℚ)) : ℝ) * (1 / 10) ≤ 1400 := by
  have hc : (((1.81 : ℚ)) : ℝ) = (181 : ℝ) / (100 : ℝ) := by norm_num
  have hb : ((7200 : ℚ) : ℝ) ^ ((181 : ℝ) / (100 : ℝ)) ≤ (9780747 : ℝ) := by
    apply rpow_le_of_pow_le 181 100 (by norm_num) (by norm_num) (by norm_num)
    norm_num
  rw [hc]
  nlinarith [hb, Real.rpow_nonneg (show (0:ℝ) ≤ ((7200 : ℚ) : ℝ) by norm_num) ((181 : ℝ) / (100 : ℝ))]

lemma coeffBound63 :
    ((0.0001841 : ℚ) : ℝ) * ((9600 : ℚ) : ℝ) ^ (((1.81 : ℚ)) : ℝ) * (1 / 10) ≤ 1400 := by
  have hc : (((1.81 : ℚ)) : ℝ) = (181 : ℝ) / (100 : ℝ) := by norm_num
  have hb : ((9600 : ℚ) : ℝ) ^ ((181 : ℝ) / (100 : ℝ)) ≤ (16463081 : ℝ) := by
    apply rpow_le_of_pow_le 181 100 (by norm_num) (by norm_num) (by norm_num)
    norm_num
  rw [hc]
  nlinarith [hb, Real.rpow_nonneg (show (0:ℝ) ≤ ((9600 : ℚ) : ℝ) by norm_num) ((181 : ℝ) / (100 : ℝ))]

lemma coeffBound64 :
    ((0.0008882 : ℚ) : ℝ) * ((6300 : ℚ) : ℝ) ^ (((1.81 : ℚ)) : ℝ) * (1 / 10) ≤ 1400 := by
  have hc : (((1.81 : ℚ)) : ℝ) = (181 : ℝ) / (100 : ℝ) := by norm_num
  have hb : ((6300 : ℚ) : ℝ) ^ ((181 : ℝ) / (100 : ℝ)) ≤ (7680802 : ℝ) := by
    apply rpow_le_of_pow_le 181 100 (by norm_num) (by norm_num) (by norm_num)
    norm_num
  rw [hc]
  nlinarith [hb, Real.rpow_nonneg (show (0:ℝ) ≤ ((6300 : ℚ) : ℝ) by norm_num) ((181 : ℝ) / (100 : ℝ))]

lemma coeffBound65 :
    ((0.00029305 : ℚ) : ℝ) * ((12600 : ℚ) : ℝ) ^ (((1.81 : ℚ)) : ℝ) * (1 / 10) ≤ 1400 := by
  have hc : (((1.81 : ℚ)) : ℝ) = (181 : ℝ) / (100 : ℝ) := by norm_num
  have hb : ((12600 : ℚ) : ℝ) ^ ((181 : ℝ) / (100 : ℝ)) ≤ (26932140 : ℝ) := by
    apply rpow_le_of_pow_le 181 100 (by norm_num) (by norm_num) (by norm_num)
    norm_num
  rw [hc]
  nlinarith [hb, Real.rpow_nonneg (show (0:ℝ) ≤ ((12600 : ℚ) : ℝ) by norm_num) ((181 : ℝ) / (100 : ℝ))]

lemma coeffBound66 :
    ((0.0002112 : ℚ) : ℝ) * ((8400 : ℚ) : ℝ) ^ (((1.81 : ℚ)) : ℝ) * (1 / 10) ≤ 1400 := by
  have hc : (((1.81 : ℚ)) : ℝ) = (181 : ℝ) / (100 : ℝ) := by norm_num
  have hb : ((8400 : ℚ) : ℝ) ^ ((181 : ℝ) / (100 : ℝ)) ≤ (12928427 : ℝ) := by
    apply rpow_le_of_pow_le 181 100 (by norm_num) (by norm_num) (by norm_num)
    norm_num
  rw [hc]
  nlinarith [hb, Real.rpow_nonneg (show (0:ℝ) ≤ ((8400 : ℚ) : ℝ) by norm_num) ((181 : ℝ) / (100 : ℝ))]

lemma coeffBound67 :
    ((0.0024365 : ℚ) : ℝ) * ((2100 : ℚ) : ℝ) ^ (((1.81 : ℚ)) : ℝ) * (1 / 10) ≤ 1400 := by
  have hc : (((1.81 : ℚ)) : ℝ) = (181 : ℝ) / (100 : ℝ) := by norm_num
  have hb : ((2100 : ℚ) : ℝ) ^ ((181 : ℝ) / (100 : ℝ)) ≤ (1051519 : ℝ) := by
    apply rpow_le_of_pow_le 181 100 (by norm_num) (by norm_num) (by norm_num)
    norm_num
  rw [hc]
  nlinarith [hb, Real.rpow_nonneg (show (0:ℝ) ≤ ((2100 : ℚ) : ℝ) by norm_num) ((181 : ℝ) / (100 : ℝ))]

lemma coeffBound68 :
    ((0.00093 : ℚ) : ℝ) * ((3600 : ℚ) : ℝ) ^ (((1.81 : ℚ)) : ℝ) * (1 / 10) ≤ 1400 := by
  have hc : (((1.81 : ℚ)) : ℝ) = (181 : ℝ) / (100 : ℝ) := by norm_num
  have hb : ((3600 : ℚ) : ℝ) ^ ((181 : ℝ) / (100 : ℝ)) ≤ (2789381 : ℝ) := by
    apply rpow_le_of_pow_le 181 100 (by norm_num) (by norm_num) (by norm_num)
    norm_num
  rw [hc]
  nlinarith [hb, Real.rpow_nonneg (show (0:ℝ) ≤ ((3600 : ℚ) : ℝ) by norm_num) ((181 : ℝ) / (100 : ℝ))]

lemma coeffBound69 :
    ((0.0002728 : ℚ) : ℝ) * ((7200 : ℚ) : ℝ) ^ (((1.81 : ℚ)) : ℝ) * (1 / 10) ≤ 1400 := by
  have hc : (((1.81 : ℚ)) : ℝ) = (181 : ℝ) / (100 : ℝ) := by norm_num
  have hb : ((7200 : ℚ) : ℝ) ^ ((181 : ℝ) / (100 : ℝ)) ≤ (9780747 : ℝ) := by
    apply rpow_le_of_pow_le 181 100 (by norm_num) (by norm_num) (by norm_num)
    norm_num
  rw [hc]
  nlinarith [hb, Real.rpow_nonneg (show (0:ℝ) ≤ ((7200 : ℚ) : ℝ) by norm_num) ((181 : ℝ) / (100 : ℝ))]

lemma coeffBound70 :
    ((8.003e-05 : ℚ) : ℝ) * ((14400 : ℚ) : ℝ) ^ (((1.81 : ℚ)) : ℝ) * (1 / 10) ≤ 1400 := by
  have hc : (((1.81 : ℚ)) : ℝ) = (181 : ℝ) / (100 : ℝ) := by norm_num
  have hb : ((14400 : ℚ) : ℝ) ^ ((181 : ℝ) / (100 : ℝ)) ≤ (34295433 : ℝ) := by
    apply rpow_le_of_pow_le 181 100 (by norm_num) (by norm_num) (by norm_num)
    norm_num
  rw [hc]
  nlinarith [hb, Real.rpow_nonneg (show (0:ℝ) ≤ ((14400 : ℚ) : ℝ) by norm_num) ((181 : ℝ) / (100 : ℝ))]

lemma coeffBound71 :
    ((0.000934 : ℚ) : ℝ) * ((3600 : ℚ) : ℝ) ^ (((1.81 : ℚ)) : ℝ) * (1 / 10) ≤ 1400 := by
  have hc : (((1.81 : ℚ)) : ℝ) = (181 : ℝ) / (100 : ℝ) := by norm_num
  have hb : ((3600 : ℚ) : ℝ) ^ ((181 : ℝ) / (100 : ℝ)) ≤ (2789381 : ℝ) := by
    apply rpow_le_of_pow_le 181 100 (by norm_num) (by norm_num) (by norm_num)
    norm_num
  rw [hc]
  nlinarith [hb, Real.rpow_nonneg (show (0:ℝ) ≤ ((3600 : ℚ) : ℝ) by norm_num) ((181 : ℝ) / (100 : ℝ))]

lemma coeffBound72 :
    ((0.0002733 : ℚ) : ℝ) * ((7200 : ℚ) : ℝ) ^ (((1.81 : ℚ)) : ℝ) * (1 / 10) ≤ 1400 := by
  have hc : (((1.81 : ℚ)) : ℝ) = (181 : ℝ) / (100 : ℝ) := by norm_num
  have hb : ((7200 : ℚ) : ℝ) ^ ((181 : ℝ) / (100 : ℝ)) ≤ (9780747 : ℝ) := by
    apply rpow_le_of_pow_le 181 100 (by norm_num) (by norm_num) (by norm_num)
    norm_num
  rw [hc]
  nlinarith [hb, Real.rpow_nonneg (show (0:ℝ) ≤ ((7200 : ℚ) : ℝ) by norm_num) ((181 : ℝ) / (100 : ℝ))]

lemma coeffBound73 :
    ((8.08e-05 : ℚ) : ℝ) * ((14400 : ℚ) : ℝ) ^ (((1.81 : ℚ)) : ℝ) * (1 / 10) ≤ 1400 := by
  have hc : (((1.81 : ℚ)) : ℝ) = (181 : ℝ) / (100 : ℝ) := by norm_num
  have hb : ((14400 : ℚ) : ℝ) ^ ((181 : ℝ) / (100 : ℝ)) ≤ (34295433 : ℝ) := by
    apply rpow_le_of_pow_le 181 100 (by norm_num) (by norm_num) (by norm_num)
    norm_num
  rw [hc]
  nlinarith [hb, Real.rpow_nonneg (show (0:ℝ) ≤ ((14400 : ℚ) : ℝ) by norm_num) ((181 : ℝ) / (100 : ℝ))]

lemma coeffBound74 :
    ((3.187e-05 : ℚ) : ℝ) * ((25200 : ℚ) : ℝ) ^ (((1.81 : ℚ)) : ℝ) * (1 / 10) ≤ 1400 := by
  have hc : (((1.81 : ℚ)) : ℝ) = (181 : ℝ) / (100 : ℝ) := by norm_num
  have hb : ((25200 : ℚ) : ℝ) ^ ((181 : ℝ) / (100 : ℝ)) ≤ (94435471 : ℝ) := by
    apply rpow_le_of_pow_le 181 100 (by norm_num) (by norm_num) (by norm_num)
    norm_num
  rw [hc]
  nlinarith [hb, Real.rpow_nonneg (show (0:ℝ) ≤ ((25200 : ℚ) : ℝ) by norm_num) ((181 : ℝ) / (100 : ℝ))]

lemma coeffBound75 :
    ((1.765e-05 : ℚ) : ℝ) * ((36000 : ℚ) : ℝ) ^ (((1.81 : ℚ)) : ℝ) * (1 / 10) ≤ 1400 := by
  have hc : (((1.81 : ℚ)) : ℝ) = (181 : ℝ) / (100 : ℝ) := by norm_num
  have hb : ((36000 : ℚ) : ℝ) ^ ((181 : ℝ) / (100 : ℝ)) ≤ (180097506 : ℝ) := by
    apply rpow_le_of_pow_le 181 100 (by norm_num) (by norm_num) (by norm_num)
    norm_num
  rw [hc]
  nlinarith [hb, Real.rpow_nonneg (show (0:ℝ) ≤ ((36000 : ℚ) : ℝ) by norm_num) ((181 : ℝ) / (100 : ℝ))]

lemma coeffBound76 :
    ((869 : ℚ) : ℝ) * ((0.75 : ℚ) : ℝ) ^ (((1.4 : ℚ)) : ℝ) * (1 / 10) ≤ 1400 := by
  have hc : (((1.4 : ℚ)) : ℝ) = (7 : ℝ) / (5 : ℝ) := by norm_num
  have hb : ((0.75 : ℚ) : ℝ) ^ ((7 : ℝ) / (5 : ℝ)) ≤ (1 : ℝ) := by
    apply rpow_le_of_pow_le 7 5 (by norm_num) (by norm_num) (by norm_num)
    norm_num
  rw [hc]
  nlinarith [hb, Real.rpow_nonneg (show (0:ℝ) ≤ ((0.75 : ℚ) : ℝ) by norm_num) ((7 : ℝ) / (5 : ℝ))]

lemma coeffBound77 :
    ((105.53 : ℚ) : ℝ) * ((1.4 : ℚ) : ℝ) ^ (((1.4 : ℚ)) : ℝ) * (1 / 10) ≤ 1400 := by
  have hc : (((1.4 : ℚ)) : ℝ) = (7 : ℝ) / (5 : ℝ) := by norm_num
  have hb : ((1.4 : ℚ) : ℝ) ^ ((7 : ℝ) / (5 : ℝ)) ≤ (2 : ℝ) := by
    apply rpow_le_of_pow_le 7 5 (by norm_num) (by norm_num) (by norm_num)
    norm_num
  rw [hc]
  nlinarith [hb, Real.rpow_nonneg (show (0:ℝ) ≤ ((1.4 : ℚ) : ℝ) by norm_num) ((7 : ℝ) / (5 : ℝ))]

lemma coeffBound78 :
    ((34.86 : ℚ) : ℝ) * ((2.5 : ℚ) : ℝ) ^ (((1.4 : ℚ)) : ℝ) * (1 / 10) ≤ 1400 := by
  have hc : (((1.4 : ℚ)) : ℝ) = (7 : ℝ) / (5 : ℝ) := by norm_num
  have hb : ((2.5 : ℚ) : ℝ) ^ ((7 : ℝ) / (5 : ℝ)) ≤ (4 : ℝ) := by
    apply rpow_le_of_pow_le 7 5 (by norm_num) (by norm_num) (by norm_num)
    norm_num
  rw [hc]
  nlinarith [hb, Real.rpow_nonneg (show (0:ℝ) ≤ ((2.5 : ℚ) : ℝ) by norm_num) ((7 : ℝ) / (5 : ℝ))]

lemma coeffBound79 :
    ((194.6 : ℚ) : ℝ) * ((1 : ℚ) : ℝ) ^ (((1.35 : ℚ)) : ℝ) * (1 / 10) ≤ 1400 := by
  have hc : (((1.35 : ℚ)) : ℝ) = (27 : ℝ) / (20 : ℝ) := by norm_num
  have hb : ((1 : ℚ) : ℝ) ^ ((27 : ℝ) / (20 : ℝ)) ≤ (2 : ℝ) := by
    apply rpow_le_of_pow_le 27 20 (by norm_num) (by norm_num) (by norm_num)
    norm_num
  rw [hc]
  nlinarith [hb, Real.rpow_nonneg (show (0:ℝ) ≤ ((1 : ℚ) : ℝ) by norm_num) ((27 : ℝ) / (20 : ℝ))]

lemma coeffBound80 :
    ((55.75 : ℚ) : ℝ) * ((1.5 : ℚ) : ℝ) ^ (((1.05 : ℚ)) : ℝ) * (1 / 10) ≤ 1400 := by
  have hc : (((1.05 : ℚ)) : ℝ) = (21 : ℝ) / (20 : ℝ) := by norm_num
  have hb : ((1.5 : ℚ) : ℝ) ^ ((21 : ℝ) / (20 : ℝ)) ≤ (2 : ℝ) := by
    apply rpow_le_of_pow_le 21 20 (by norm_num) (by norm_num) (by norm_num)
    norm_num
  rw [hc]
  nlinarith [hb, Real.rpow_nonneg (show (0:ℝ) ≤ ((1.5 : ℚ) : ℝ) by norm_num) ((21 : ℝ) / (20 : ℝ))]

lemma coeffBound81 :
    ((12.18 : ℚ) : ℝ) * ((3 : ℚ) : ℝ) ^ (((1.1 : ℚ)) : ℝ) * (1 / 10) ≤ 1400 := by
  have hc : (((1.1 : ℚ)) : ℝ) = (11 : ℝ) / (10 : ℝ) := by norm_num
  have hb : ((3 : ℚ) : ℝ) ^ ((11 : ℝ) / (10 : ℝ)) ≤ (4 : ℝ) := by
    apply rpow_le_of_pow_le 11 10 (by norm_num) (by norm_num) (by norm_num)
    norm_num
  rw [hc]
  nlinarith [hb, Real.rpow_nonneg (show (0:ℝ) ≤ ((3 : ℚ) : ℝ) by norm_num) ((11 : ℝ) / (10 : ℝ))]

lemma coeffBound82 :
    ((13.26 : ℚ) : ℝ) * ((4 : ℚ) : ℝ) ^ (((1.05 : ℚ)) : ℝ) * (1 / 10) ≤ 1400 := by
  have hc : (((1.05 : ℚ)) : ℝ) = (21 : ℝ) / (20 : ℝ) := by norm_num
  have hb : ((4 : ℚ) : ℝ) ^ ((21 : ℝ) / (20 : ℝ)) ≤ (5 : ℝ) := by
    apply rpow_le_of_pow_le 21 20 (by norm_num) (by norm_num) (by norm_num)
    norm_num
  rw [hc]
  nlinarith [hb, Real.rpow_nonneg (show (0:ℝ) ≤ ((4 : ℚ) : ℝ) by norm_num) ((21 : ℝ) / (20 : ℝ))]

lemma coeffBound83 :
    ((9.983 : ℚ) : ℝ) * ((3 : ℚ) : ℝ) ^ (((1.15 : ℚ)) : ℝ) * (1 / 10) ≤ 1400 := by
  have hc : (((1.15 : ℚ)) : ℝ) = (23 : ℝ) / (20 : ℝ) := by norm_num
  have hb : ((3 : ℚ) : ℝ) ^ ((23 : ℝ) / (20 : ℝ)) ≤ (4 : ℝ) := by
    apply rpow_le_of_pow_le 23 20 (by norm_num) (by norm_num) (by norm_num)
    norm_num
  rw [hc]
  nlinarith [hb, Real.rpow_nonneg (show (0:ℝ) ≤ ((3 : ℚ) : ℝ) by norm_num) ((23 : ℝ) / (20 : ℝ))]

/-- Every coefficient row of either gender table has nonnegative A, B, C and
satisfies the sub-baseline branch bound A * B ^ C / 10 ≤ 1400. -/
lemma coeff_facts : ∀ c ∈ allCoeffs, 0 ≤ c.A ∧ 0 ≤ c.C ∧ 0 ≤ c.B ∧
    (c.A : ℝ) * (c.B : ℝ) ^ ((c.C : ℚ) : ℝ) * (1 / 10) ≤ 1400 := by
  intro c hc
  fin_cases hc
  · exact ⟨by norm_num, by norm_num, by norm_num, coeffBound1⟩
  · exact ⟨by norm_num, by norm_num, by norm_num, coeffBound2⟩
  · exact ⟨by norm_num, by norm_num, by norm_num, coeffBound3⟩
  · exact ⟨by norm_num, by norm_num, by norm_num, coeffBound4⟩
  · exact ⟨by norm_num, by norm_num, by norm_num, coeffBound5⟩
  · exact ⟨by norm_num, by norm_num, by norm_num, coeffBound6⟩
  · exact ⟨by norm_num, by norm_num, by norm_num, coeffBound7⟩
  · exact ⟨by norm_num, by norm_num, by norm_num, coeffBound8⟩
  · exact ⟨by norm_num, by norm_num, by norm_num, coeffBound9⟩
  · exact ⟨by norm_num, by norm_num, by norm_num, coeffBound10⟩
  · exact ⟨by norm_num, by norm_num, by norm_num, coeffBound11⟩
  · exact ⟨by norm_num, by norm_num, by norm_num, coeffBound12⟩
  · exact ⟨by norm_num, by norm_num, by norm_num, coeffBound13⟩
  · exact ⟨by norm_num, by norm_num, by norm_num, coeffBound14⟩
  · exact ⟨by norm_num, by norm_num, by norm_num, coeffBound15⟩
  · exact ⟨by norm_num, by norm_num, by norm_num, coeffBound16⟩
  · exact ⟨by norm_num, by norm_num, by norm_num, coeffBound17⟩
  · exact ⟨by norm_num, by norm_num, by norm_num, coeffBound18⟩
  · exact ⟨by norm_num, by norm_num, by norm_num, coeffBound19⟩
  · exact ⟨by norm_num, by norm_num, by norm_num, coeffBound20⟩
  · exact ⟨by norm_num, by norm_num, by norm_num, coeffBound21⟩
  · exact ⟨by norm_num, by norm_num, by norm_num, coeffBound22⟩
  · exact ⟨by norm_num, by norm_num, by norm_num, coeffBound23⟩
  · exact ⟨by norm_num, by norm_num, by norm_num, coeffBound24⟩
  · exact ⟨by norm_num, by norm_num, by norm_num, coeffBound25⟩
  · exact ⟨by norm_num, by norm_num, by norm_num, coeffBound26⟩
  · exact ⟨by norm_num, by norm_num, by norm_num, coeffBound27⟩
  · exact ⟨by norm_num, by norm_num, by norm_num, coeffBound28⟩
  · exact ⟨by norm_num, by norm_num, by norm_num, coeffBound29⟩
  · exact ⟨by norm_num, by norm_num, by norm_num, coeffBound30⟩
  · exact ⟨by norm_num, by norm_num, by norm_num, coeffBound31⟩
  · exact ⟨by norm_num, by norm_num, by norm_num, coeffBound32⟩
  · exact ⟨by norm_num, by norm_num, by norm_num, coeffBound33⟩
  · exact ⟨by norm_num, by norm_num, by norm_num, coeffBound34⟩
  · exact ⟨by norm_num, by norm_num, by norm_num, coeffBound35⟩
  · exact ⟨by norm_num, by norm_num, by norm_num, coeffBound36⟩
  · exact ⟨by norm_num, by norm_num, by norm_num, coeffBound37⟩
  · exact ⟨by norm_num, by norm_num, by norm_num, coeffBound38⟩
  · exact ⟨by norm_num, by norm_num, by norm_num, coeffBound39⟩
  · exact ⟨by norm_num, by norm_num, by norm_num, coeffBound40⟩
  · exact ⟨by norm_num, by norm_num, by norm_num, coeffBound41⟩
  · exact ⟨by norm_num, by norm_num, by norm_num, coeffBound42⟩
  · exact ⟨by norm_num, by norm_num, by norm_num, coeffBound43⟩
  · exact ⟨by norm_num, by norm_num, by norm_num, coeffBound44⟩
  · exact ⟨by norm_num, by norm_num, by norm_num, coeffBound45⟩
  · exact ⟨by norm_num, by norm_num, by norm_num, coeffBound46⟩
  · exact ⟨by norm_num, by norm_num, by norm_num, coeffBound47⟩
  · exact ⟨by norm_num, by norm_num, by norm_num, coeffBound48⟩
  · exact ⟨by norm_num, by norm_num, by norm_num, coeffBound49⟩
  · exact ⟨by norm_num, by norm_num, by norm_num, coeffBound50⟩
  · exact ⟨by norm_num, by norm_num, by norm_num, coeffBound51⟩
  · exact ⟨by norm_num, by norm_num, by norm_num, coeffBound52⟩
  · exact ⟨by norm_num, by norm_num, by norm_num, coeffBound53⟩
  · exact ⟨by norm_num, by norm_num, by norm_num, coeffBound54⟩
  · exact ⟨by norm_num, by norm_num, by norm_num, coeffBound55⟩
  · exact ⟨by norm_num, by norm_num, by norm_num, coeffBound56⟩
  · exact ⟨by norm_num, by norm_num, by norm_num, coeffBound57⟩
  · exact ⟨by norm_num, by norm_num, by norm_num, coeffBound58⟩
  · exact ⟨by norm_num, by norm_num, by norm_num, coeffBound59⟩
  · exact ⟨by norm_num, by norm_num, by norm_num, coeffBound60⟩
  · exact ⟨by norm_num, by norm_num, by norm_num, coeffBound61⟩
  · exact ⟨by norm_num, by norm_num, by norm_num, coeffBound62⟩
  · exact ⟨by norm_num, by norm_num, by norm_num, coeffBound63⟩
  · exact ⟨by norm_num, by norm_num, by norm_num, coeffBound64⟩
  · exact ⟨by norm_num, by norm_num, by norm_num, coeffBound65⟩
  · exact ⟨by norm_num, by norm_num, by norm_num, coeffBound66⟩
  · exact ⟨by norm_num, by norm_num, by norm_num, coeffBound67⟩
  · exact ⟨by norm_num, by norm_num, by norm_num, coeffBound68⟩
  · exact ⟨by norm_num, by norm_num, by norm_num, coeffBound69⟩
  · exact ⟨by norm_num, by norm_num, by norm_num, coeffBound70⟩
  · exact ⟨by norm_num, by norm_num, by norm_num, coeffBound71⟩
  · exact ⟨by norm_num, by norm_num, by norm_num, coeffBound72⟩
  · exact ⟨by norm_num, by norm_num, by norm_num, coeffBound73⟩
  · exact ⟨by norm_num, by norm_num, by norm_num, coeffBound74⟩
  · exact ⟨by norm_num, by norm_num, by norm_num, coeffBound75⟩
  · exact ⟨by norm_num, by norm_num, by norm_num, coeffBound76⟩
  · exact ⟨by norm_num, by norm_num, by norm_num, coeffBound77⟩
  · exact ⟨by norm_num, by norm_num, by norm_num, coeffBound78⟩
  · exact ⟨by norm_num, by norm_num, by norm_num, coeffBound79⟩
  · exact ⟨by norm_num, by norm_num, by norm_num, coeffBound80⟩
  · exact ⟨by norm_num, by norm_num, by norm_num, coeffBound81⟩
  · exact ⟨by norm_num, by norm_num, by norm_num, coeffBound82⟩
  · exact ⟨by norm_num, by norm_num, by norm_num, coeffBound83⟩
/-- A coefficient row resolved by findCoeffs is a row of the table. -/
lemma findCoeffs_mem {tbl : List (Str × Coeff)} {e : Str} {c : Coeff}
    (h : findCoeffs tbl e = some c) : c ∈ tbl.map Prod.snd := by
  unfold findCoeffs at h
  cases h1 : tbl.find? (fun p => p.1 = e) with
  | some p =>
    rw [h1] at h
    cases h
    exact List.mem_map_of_mem _ (List.mem_of_find?_eq_some h1)
  | none =>
    rw [h1] at h
    rw [Option.map_eq_some'] at h
    obtain ⟨p, hp, hpe⟩ := h
    cases hpe
    exact List.mem_map_of_mem _ (List.mem_of_find?_eq_some hp)

/-- A coefficient row resolved for any gender is a row of one of the
two tables. -/
lemma coeffsFor_mem {g e : Str} {c : Coeff} (h : coeffsFor g e = some c) : c ∈ allCoeffs := by
  unfold coeffsFor at h
  cases hg : genderCoeffs g with
  | none => rw [hg] at h; cases h
  | some tbl =>
    rw [hg] at h
    simp only [Option.some_bind] at h
    have hmem := findCoeffs_mem h
    unfold genderCoeffs at hg
    by_cases h1 : g = enc "M"
    · rw [if_pos h1] at hg
      cases hg
      exact List.mem_append_left _ hmem
    · rw [if_neg h1] at hg
      by_cases h2 : g = enc "F"
      · rw [if_pos h2] at hg
        cases hg
        exact List.mem_append_right _ hmem
      · rw [if_neg h2] at hg
        cases hg

/-- C5: whenever the event and gender pair resolves a coefficient row
(exactly or by partial match), the enhanced score of any positive
finite result exists and lies within 0 and 1400: the time branch and
the above-baseline distance branch are clamped into the interval, and
the unclamped sub-baseline distance branch is bounded by
A * B ^ C / 10, which stays below 1400 for every row of both gender
tables. -/
theorem C5_score_within_bounds (result : ℚ) (event : Str) (unit : Option Str) (gender : Str)
    (hr : 0 < result) (hc : (coeffsFor gender event).isSome = true) :
    ∃ s : ℝ, calculate_performance_score_enhanced result (some event) unit (some gender) =
        some s ∧ 0 ≤ s ∧ s ≤ 1400 := by
  obtain ⟨c, hcc⟩ := Option.isSome_iff_exists.mp hc
  have hmem := coeffsFor_mem hcc
  obtain ⟨hA, hC, hB, hbd⟩ := coeff_facts c hmem
  have hA' : (0:ℝ) ≤ (c.A : ℝ) := by exact_mod_cast hA
  have hC' : (0:ℝ) ≤ ((c.C : ℚ) : ℝ) := by exact_mod_cast hC
  have hr' : (0:ℝ) < (result : ℝ) := by exact_mod_cast hr
  have hg : ∃ tbl, genderCoeffs gender = some tbl ∧ findCoeffs tbl (stripWs event) = some c := by
    unfold coeffsFor at hcc
    cases hgg : genderCoeffs gender with
    | none => rw [hgg] at hcc; cases hcc
    | some tbl =>
      rw [hgg] at hcc
      simp only [Option.some_bind] at hcc
      exact ⟨tbl, rfl, hcc⟩
  obtain ⟨tbl, hg1, hg2⟩ := hg
  have hred : calculate_performance_score_enhanced result (some event) unit (some gender) =
      (if unit = some (enc "seconds") then
        if result ≤ 0 then some (0:ℝ)
        else some (max 0 (min 1400 ((c.A : ℝ) * |(c.B : ℝ) - (result : ℝ)| ^ ((c.C : ℚ) : ℝ))))
      else
        if result ≤ c.B then
          some (max 0 ((c.A : ℝ) * |(result : ℝ) - (c.B : ℝ)| ^ ((c.C : ℚ) : ℝ) * (1 / 10)))
        else
          some (max 0 (min 1400 ((c.A : ℝ) * |(result : ℝ) - (c.B : ℝ)| ^ ((c.C : ℚ) : ℝ))))) := by
    simp only [calculate_performance_score_enhanced, Option.some_bind, hg1, hg2]
    rw [if_neg (not_le.2 hr)]
  rw [hred]
  by_cases hu : unit = some (enc "seconds")
  · rw [if_pos hu, if_neg (not_le.2 hr)]
    exact ⟨_, rfl, le_max_left _ _, max_le (by norm_num) (min_le_left _ _)⟩
  · rw [if_neg hu]
    by_cases hrb : result ≤ c.B
    · rw [if_pos hrb]
      refine ⟨_, rfl, le_max_left _ _, max_le (by norm_num) ?_⟩
      have hrb' : (result : ℝ) ≤ (c.B : ℝ) := by exact_mod_cast hrb
      have habs : |(result : ℝ) - (c.B : ℝ)| = (c.B : ℝ) - (result : ℝ) := by
        rw [abs_sub_comm]
        exact abs_of_nonneg (by linarith)
      rw [habs]
      have hmono : ((c.B : ℝ) - (result : ℝ)) ^ ((c.C : ℚ) : ℝ) ≤ (c.B : ℝ) ^ ((c.C : ℚ) : ℝ) :=
        Real.rpow_le_rpow (by linarith) (by linarith) hC'
      linarith [hbd, mul_le_mul_of_nonneg_left hmono hA']
    · rw [if_neg hrb]
      exact ⟨_, rfl, le_max_left _ _, max_le (by norm_num) (min_le_left _ _)⟩

/-- C5 witness: the 100 Metres event for gender M resolves a
coefficient row and the score of the result 10 is bounded. -/
theorem C5_score_within_bounds_witness :
    (0:ℚ) < 10 ∧ (coeffsFor (enc "M") (enc "100 Metres")).isSome = true ∧
    ∃ s : ℝ, calculate_performance_score_enhanced 10 (some (enc "100 Metres"))
        (some (enc "seconds")) (some (enc "M")) = some s ∧ 0 ≤ s ∧ s ≤ 1400 :=
  ⟨by decide, by decide,
    C5_score_within_bounds 10 (enc "100 Metres") (some (enc "seconds")) (enc "M")
      (by decide) (by decide)⟩

lemma isPrefixB_iff {p l : Str} : isPrefixB p l = true ↔ ∃ post, l = p ++ post := by
  induction p generalizing l with
  | nil => simp [isPrefixB]
  | cons a as ih =>
    cases l with
    | nil => simp [isPrefixB]
    | cons b bs =>
      simp only [isPrefixB, Bool.and_eq_true, beq_iff_eq, ih, List.cons_append,
        List.cons_eq_cons]
      constructor
      · rintro ⟨rfl, post, rfl⟩
        exact ⟨post, rfl, rfl⟩
      · rintro ⟨post, rfl, rfl⟩
        exact ⟨rfl, post, rfl⟩

lemma isSuffixB_iff {s l : Str} : isSuffixB s l = true ↔ ∃ pre, l = pre ++ s := by
  unfold isSuffixB
  rw [isPrefixB_iff]
  constructor
  · rintro ⟨post, hpost⟩
    refine ⟨post.reverse, ?_⟩
    have := congrArg List.reverse hpost
    simpa using this
  · rintro ⟨pre, rfl⟩
    exact ⟨pre.reverse, by simp⟩

lemma words_one {c : Nat} (h : isWsB c = false) : words [c] = [[c]] := by
  simp [words, h]

lemma words_cons_ws {c : Nat} (h : isWsB c = true) (l : Str) : words (c :: l) = words l := by
  cases l with
  | nil => simp [words, h]
  | cons d cs => simp [words, h]

lemma words_nonnil {d : Nat} (hd : isWsB d = false) (l : Str) : words (d :: l) ≠ [] := by
  cases l with
  | nil => simp [words, hd]
  | cons e cs =>
    simp only [words, hd, Bool.false_eq_true, if_false]
    cases words (e :: cs) with
    | nil => simp
    | cons w rest =>
      by_cases he : isWsB e = true
      · simp [he]
      · simp [he]

lemma words_cc_ws {c d : Nat} {l : Str} (hc : isWsB c = false) (hd : isWsB d = true) :
    words (c :: d :: l) = [c] :: words (d :: l) := by
  simp only [words, hc, Bool.false_eq_true, if_false]
  cases hw : words (d :: l) with
  | nil => simp
  | cons w rest => simp [hd]

lemma words_cc_nonws {c d : Nat} {l : Str} {w : Str} {rest : List Str}
    (hc : isWsB c = false) (hd : isWsB d = false) (h : words (d :: l) = w :: rest) :
    words (c :: d :: l) = (c :: w) :: rest := by
  simp only [words, hc, Bool.false_eq_true, if_false, h, hd]

lemma words_single {w : Str} (hne : w ≠ []) (hnw : ∀ c ∈ w, isWsB c = false) :
    words w = [w] := by
  induction w with
  | nil => exact absurd rfl hne
  | cons c w' ih =>
    have hc : isWsB c = false := hnw c (List.mem_cons_self c w')
    cases w' with
    | nil => exact words_one hc
    | cons d w'' =>
      have hd : isWsB d = false := hnw d (by simp)
      have ihd : words (d :: w'') = [d :: w''] :=
        ih (by simp) (fun e he => hnw e (List.mem_cons_of_mem _ he))
      exact words_cc_nonws hc hd ihd

lemma words_word_append {w l : Str} (hne : w ≠ []) (hnw : ∀ c ∈ w, isWsB c = false) :
    words (w ++ 32 :: l) = w :: words l := by
  induction w with
  | nil => exact absurd rfl hne
  | cons c w' ih =>
    have hc : isWsB c = false := hnw c (List.mem_cons_self c w')
    cases w' with
    | nil =>
      show words (c :: 32 :: l) = [c] :: words l
      rw [words_cc_ws hc (by decide), words_cons_ws (by decide) l]
    | cons d w'' =>
      have hd : isWsB d = false := hnw d (by simp)
      have ihd : words ((d :: w'') ++ 32 :: l) = (d :: w'') :: words l :=
        ih (by simp) (fun e he => hnw e (List.mem_cons_of_mem _ he))
      show words (c :: d :: (w'' ++ 32 :: l)) = (c :: d :: w'') :: words l
      have ihd2 : words (d :: (w'' ++ 32 :: l)) = (d :: w'') :: words l := by
        simpa using ihd
      exact words_cc_nonws hc hd ihd2

lemma goodWords_words (l : Str) : goodWords (words l) := by
  induction l with
  | nil => intro w hw; simp [words] at hw
  | cons c cs ih =>
    intro w hw
    by_cases hc : isWsB c = true
    · rw [words_cons_ws hc] at hw
      exact ih w hw
    · have hc' : isWsB c = false := by revert hc; cases isWsB c <;> simp
      cases cs with
      | nil =>
        rw [words_one hc'] at hw
        simp at hw
        subst hw
        exact ⟨by simp, fun e he => by simp at he; subst he; exact hc'⟩
      | cons d cs' =>
        by_cases hd : isWsB d = true
        · rw [words_cc_ws hc' hd] at hw
          rcases List.mem_cons.mp hw with rfl | hw2
          · exact ⟨by simp, fun e he => by simp at he; subst he; exact hc'⟩
          · exact ih w hw2
        · have hd' : isWsB d = false := by revert hd; cases isWsB d <;> simp
          cases hws : words (d :: cs') with
          | nil => exact absurd hws (words_nonnil hd' cs')
          | cons w0 ws0 =>
            rw [words_cc_nonws hc' hd' hws] at hw
            rcases List.mem_cons.mp hw with rfl | hw2
            · obtain ⟨h1, h2⟩ := ih w0 (by rw [hws]; exact List.mem_cons_self _ _)
              refine ⟨by simp, fun e he => ?_⟩
              rcases List.mem_cons.mp he with rfl | he2
              · exact hc'
              · exact h2 e he2
            · exact ih w (by rw [hws]; exact List.mem_cons_of_mem _ hw2)

lemma mem_of_mem_words {l : Str} {c : Nat} {w : Str} (hw : w ∈ words l) (hc : c ∈ w) :
    c ∈ l := by
  induction l generalizing w with
  | nil => simp [words] at hw
  | cons a cs ih =>
    by_cases ha : isWsB a = true
    · rw [words_cons_ws ha] at hw
      exact List.mem_cons_of_mem _ (ih hw hc)
    · have ha' : isWsB a = false := by revert ha; cases isWsB a <;> simp
      cases cs with
      | nil =>
        rw [words_one ha'] at hw
        simp at hw
        subst hw
        simp at hc
        simp [hc]
      | cons d cs' =>
        by_cases hd : isWsB d = true
        · rw [words_cc_ws ha' hd] at hw
          rcases List.mem_cons.mp hw with rfl | hw2
          · simp at hc
            simp [hc]
          · exact List.mem_cons_of_mem _ (ih hw2 hc)
        · have hd' : isWsB d = false := by revert hd; cases isWsB d <;> simp
          cases hws : words (d :: cs') with
          | nil => exact absurd hws (words_nonnil hd' cs')
          | cons w0 ws0 =>
            rw [words_cc_nonws ha' hd' hws] at hw
            rcases List.mem_cons.mp hw with rfl | hw2
            · rcases List.mem_cons.mp hc with rfl | hc2
              · exact List.mem_cons_self _ _
              · exact List.mem_cons_of_mem _ (ih (by rw [hws]; exact List.mem_cons_self _ _) hc2)
            · exact List.mem_cons_of_mem _ (ih (by rw [hws]; exact List.mem_cons_of_mem _ hw2) hc)

lemma unwords_cons_cons (w v : Str) (ws : List Str) :
    unwords (w :: v :: ws) = w ++ 32 :: unwords (v :: ws) := rfl

lemma mem_unwords {ws : List Str} {c : Nat} (h : c ∈ unwords ws) :
    (∃ w ∈ ws, c ∈ w) ∨ c = 32 := by
  induction ws with
  | nil => simp [unwords] at h
  | cons w ws' ih =>
    cases ws' with
    | nil =>
      simp only [unwords] at h
      exact Or.inl ⟨w, by simp, h⟩
    | cons v ws'' =>
      rw [unwords_cons_cons] at h
      rcases List.mem_append.mp h with h1 | h1
      · exact Or.inl ⟨w, by simp, h1⟩
      · rcases List.mem_cons.mp h1 with rfl | h2
        · exact Or.inr rfl
        · rcases ih h2 with ⟨w0, hw0, hc0⟩ | h3
          · exact Or.inl ⟨w0, List.mem_cons_of_mem _ hw0, hc0⟩
          · exact Or.inr h3

lemma words_unwords {ws : List Str} (h : goodWords ws) : words (unwords ws) = ws := by
  induction ws with
  | nil => simp [unwords, words]
  | cons w ws' ih =>
    cases ws' with
    | nil =>
      obtain ⟨h1, h2⟩ := h w (by simp)
      exact words_single h1 h2
    | cons v ws'' =>
      obtain ⟨h1, h2⟩ := h w (by simp)
      rw [unwords_cons_cons, words_word_append h1 h2,
        ih (fun u hu => h u (List.mem_cons_of_mem _ hu))]

lemma canon_collapseWs (l : Str) : Canon (collapseWs l) :=
  ⟨words l, goodWords_words l, rfl⟩

lemma collapseWs_of_canon {l : Str} (h : Canon l) : collapseWs l = l := by
  obtain ⟨ws, hws, rfl⟩ := h
  unfold collapseWs
  rw [words_unwords hws]

lemma dropWhile_ws_eq_self {l : Str} (h : ∀ c, l.head? = some c → isWsB c = false) :
    l.dropWhile isWsB = l := by
  cases l with
  | nil => rfl
  | cons a l' =>
    rw [List.dropWhile_cons, if_neg]
    simp [h a rfl]

lemma unwords_ne_nil {ws : List Str} (hne : ws ≠ []) (h : goodWords ws) :
    unwords ws ≠ [] := by
  cases ws with
  | nil => exact absurd rfl hne
  | cons w ws' =>
    obtain ⟨h1, _⟩ := h w (by simp)
    cases ws' with
    | nil => exact h1
    | cons v ws'' =>
      rw [unwords_cons_cons]
      simp [h1]

lemma unwords_head_nonws {ws : List Str} (h : goodWords ws) :
    ∀ c, (unwords ws).head? = some c → isWsB c = false := by
  intro c hc
  cases ws with
  | nil => simp [unwords] at hc
  | cons w ws' =>
    obtain ⟨h1, h2⟩ := h w (by simp)
    cases w with
    | nil => exact absurd rfl h1
    | cons a w' =>
      cases ws' with
      | nil =>
        simp only [unwords, List.head?_cons] at hc
        cases hc
        exact h2 c (List.mem_cons_self _ _)
      | cons v ws'' =>
        rw [unwords_cons_cons, List.head?_append_of_ne_nil _ (by simp),
          List.head?_cons] at hc
        cases hc
        exact h2 c (List.mem_cons_self _ _)

lemma unwords_getLast_nonws {ws : List Str} (h : goodWords ws) :
    ∀ c, (unwords ws).getLast? = some c → isWsB c = false := by
  induction ws with
  | nil => intro c hc; simp [unwords] at hc
  | cons w ws' ih =>
    intro c hc
    cases ws' with
    | nil =>
      obtain ⟨h1, h2⟩ := h w (by simp)
      have hcm : c ∈ w := by
        have hrev : c ∈ w.reverse.head? := by
          rw [List.head?_reverse]
          exact Option.mem_def.mpr hc
        exact List.mem_reverse.mp (List.mem_of_mem_head? hrev)
      exact h2 c hcm
    | cons v ws'' =>
      have hgw : goodWords (v :: ws'') := fun u hu => h u (List.mem_cons_of_mem _ hu)
      have hu : unwords (v :: ws'') ≠ [] := unwords_ne_nil (by simp) hgw
      rw [unwords_cons_cons, List.getLast?_append_of_ne_nil _ (by simp)] at hc
      cases hun : unwords (v :: ws'') with
      | nil => exact absurd hun hu
      | cons b u' =>
        rw [hun, List.getLast?_cons_cons] at hc
        exact ih hgw c (by rw [hun]; exact hc)

lemma stripWs_of_canon {l : Str} (h : Canon l) : stripWs l = l := by
  obtain ⟨ws, hws, rfl⟩ := h
  unfold stripWs
  rw [dropWhile_ws_eq_self (unwords_head_nonws hws), dropWhile_ws_eq_self ?_,
    List.reverse_reverse]
  intro c hc
  rw [List.head?_reverse] at hc
  exact unwords_getLast_nonws hws c hc

lemma stripWs_nonws {w : Str} (h : ∀ c ∈ w, isWsB c = false) : stripWs w = w := by
  unfold stripWs
  rw [dropWhile_ws_eq_self (fun c hc => h c (List.mem_of_mem_head? (Option.mem_def.mpr hc))),
    dropWhile_ws_eq_self
      (fun c hc => h c (List.mem_reverse.mp (List.mem_of_mem_head? (Option.mem_def.mpr hc)))),
    List.reverse_reverse]

lemma stripWs_word_append {w v : Str} (hne : w ≠ []) (hnw : ∀ c ∈ w, isWsB c = false)
    (hv : v.dropWhile isWsB = v) :
    stripWs (w ++ 32 :: v) = if stripWs v = [] then w else w ++ 32 :: stripWs v := by
  have hwrev : w.reverse.dropWhile isWsB = w.reverse :=
    dropWhile_ws_eq_self
      (fun c hc => hnw c (List.mem_reverse.mp (List.mem_of_mem_head? (Option.mem_def.mpr hc))))
  have hsv : stripWs v = (v.reverse.dropWhile isWsB).reverse := by
    unfold stripWs
    rw [hv]
  have hfront : (w ++ 32 :: v).dropWhile isWsB = w ++ 32 :: v := by
    apply dropWhile_ws_eq_self
    intro c hc
    cases w with
    | nil => exact absurd rfl hne
    | cons a w' =>
      rw [List.head?_append_of_ne_nil _ (by simp), List.head?_cons] at hc
      cases hc
      exact hnw c (List.mem_cons_self _ _)
  have hrev : (w ++ 32 :: v).reverse = v.reverse ++ 32 :: w.reverse := by
    rw [List.reverse_append, List.reverse_cons]
    simp
  unfold stripWs
  rw [hv, hfront, hrev, List.dropWhile_append]
  cases hr : v.reverse.dropWhile isWsB with
  | nil =>
    simp only [List.isEmpty_nil, if_true]
    have hmid : (32 :: w.reverse).dropWhile isWsB = w.reverse := by
      rw [List.dropWhile_cons, if_pos (by decide)]
      exact hwrev
    rw [hmid, List.reverse_reverse, if_pos (by simp)]
  | cons b r' =>
    simp only [List.isEmpty_cons, if_false]
    rw [if_neg (by simp), List.reverse_append, List.reverse_cons, List.reverse_reverse]
    simp

lemma canon_stripWs_pre {ws : List Str} {pre t : Str} (hws : goodWords ws)
    (heq : unwords ws = pre ++ 32 :: t) :
    Canon (stripWs pre) := by
  induction ws generalizing pre with
  | nil => simp [unwords] at heq
  | cons w ws' ih =>
    cases ws' with
    | nil =>
      obtain ⟨h1, h2⟩ := hws w (by simp)
      have hwp : w = pre ++ 32 :: t := heq
      have h32 : (32 : Nat) ∈ w := by rw [hwp]; simp
      have := h2 32 h32
      simp [isWsB] at this
    | cons v ws'' =>
      rw [unwords_cons_cons] at heq
      obtain ⟨hw1, hw2⟩ := hws w (by simp)
      have hgw : goodWords (v :: ws'') := fun u hu => hws u (List.mem_cons_of_mem _ hu)
      rcases lt_trichotomy pre.length w.length with hlt | hEq | hgt
      · exfalso
        have htk : (w ++ 32 :: unwords (v :: ws'')).take (pre.length + 1)
            = (pre ++ 32 :: t).take (pre.length + 1) := by rw [heq]
        rw [List.take_append_eq_append_take, List.take_append_eq_append_take] at htk
        have hz : pre.length + 1 - w.length = 0 := by omega
        have hz2 : pre.length + 1 - pre.length = 1 := by omega
        rw [hz, hz2] at htk
        simp only [List.take_zero, List.append_nil] at htk
        have hp : pre.take (pre.length + 1) = pre := List.take_of_length_le (by omega)
        rw [hp] at htk
        have ht1 : (32 :: t).take 1 = [32] := by simp
        rw [ht1] at htk
        have h32 : (32 : Nat) ∈ w := by
          apply List.take_subset (pre.length + 1)
          rw [htk]; simp
        have := hw2 32 h32
        simp [isWsB] at this
      · obtain ⟨hwp, _⟩ := List.append_inj heq hEq.symm
        subst hwp
        exact ⟨[w], fun u hu => by simp at hu; subst hu; exact ⟨hw1, hw2⟩,
          stripWs_nonws hw2⟩
      · have htk : (w ++ 32 :: unwords (v :: ws'')).take (w.length + 1)
            = (pre ++ 32 :: t).take (w.length + 1) := by rw [heq]
        rw [List.take_append_eq_append_take, List.take_append_eq_append_take] at htk
        have hz : w.length + 1 - w.length = 1 := by omega
        have hz2 : w.length + 1 - pre.length = 0 := by omega
        rw [hz, hz2] at htk
        simp only [List.take_zero, List.append_nil] at htk
        have hwt : w.take (w.length + 1) = w := List.take_of_length_le (by omega)
        rw [hwt] at htk
        have ht1 : (32 :: unwords (v :: ws'')).take 1 = [32] := by simp
        rw [ht1] at htk
        have hpre : pre = w ++ 32 :: pre.drop (w.length + 1) := by
          conv_lhs => rw [← List.take_append_drop (w.length + 1) pre]
          rw [← htk]
          simp
        have hu : unwords (v :: ws'') = pre.drop (w.length + 1) ++ 32 :: t := by
          rw [hpre] at heq
          simpa using heq
        have hc2 := ih hgw hu
        have hpre2drop : (pre.drop (w.length + 1)).dropWhile isWsB
            = pre.drop (w.length + 1) := by
          apply dropWhile_ws_eq_self
          intro c hc
          apply unwords_head_nonws hgw c
          rw [hu]
          cases hp2 : pre.drop (w.length + 1) with
          | nil => rw [hp2] at hc; simp at hc
          | cons a p2 =>
            rw [hp2] at hc
            simp only [List.head?_cons, Option.some.injEq] at hc
            subst hc
            simp
        rw [hpre, stripWs_word_append hw1 hw2 hpre2drop]
        split
        · exact ⟨[w], fun u hu' => by simp at hu'; subst hu'; exact ⟨hw1, hw2⟩, rfl⟩
        · rename_i hne
          obtain ⟨ws2, hws2, hpre2s⟩ := hc2
          cases ws2 with
          | nil => exact absurd (by rw [hpre2s]; rfl) hne
          | cons z zs =>
            refine ⟨w :: z :: zs, ?_, ?_⟩
            · intro u hu'
              rcases List.mem_cons.mp hu' with rfl | h2
              · exact ⟨hw1, hw2⟩
              · exact hws2 u h2
            · rw [unwords_cons_cons, ← hpre2s]

lemma canon_stripSuffixStep {l t : Str} (hc : Canon l) :
    Canon (stripSuffixStep l (32 :: t)) := by
  unfold stripSuffixStep
  split
  · rename_i hsf
    obtain ⟨pre, hpre⟩ := isSuffixB_iff.mp hsf
    have hlen : l.length - (32 :: t).length = pre.length := by
      rw [hpre]; simp
    rw [hlen, hpre, List.take_left]
    obtain ⟨ws, hws, hl⟩ := hc
    exact canon_stripWs_pre hws (hl.symm.trans hpre)
  · exact hc

lemma canon_foldStrip {sufs : List Str} (hsufs : ∀ s ∈ sufs, ∃ t, s = 32 :: t)
    {l : Str} (hc : Canon l) : Canon (sufs.foldl stripSuffixStep l) := by
  induction sufs generalizing l with
  | nil => exact hc
  | cons s ss ih =>
    simp only [List.foldl]
    apply ih (fun u hu => hsufs u (List.mem_cons_of_mem _ hu))
    obtain ⟨t, rfl⟩ := hsufs s (List.mem_cons_self _ _)
    exact canon_stripSuffixStep hc

lemma suffixes_shape : ∀ s ∈ suffixes_to_remove, ∃ t, s = 32 :: t := by
  intro s hs
  simp only [suffixes_to_remove, List.mem_cons, List.not_mem_nil, or_false] at hs
  rcases hs with rfl | rfl | rfl | rfl | rfl | rfl
  · exact ⟨enc "JR", by decide⟩
  · exact ⟨enc "SR", by decide⟩
  · exact ⟨enc "III", by decide⟩
  · exact ⟨enc "II", by decide⟩
  · exact ⟨enc "JUNIOR", by decide⟩
  · exact ⟨enc "SENIOR", by decide⟩

lemma canon_sfxFold {l : Str} (hc : Canon l) :
    Canon (suffixes_to_remove.foldl stripSuffixStep l) :=
  canon_foldStrip suffixes_shape hc

lemma mem_stripWs {c : Nat} {l : Str} (h : c ∈ stripWs l) : c ∈ l := by
  unfold stripWs at h
  rw [List.mem_reverse] at h
  have h2 := (List.dropWhile_sublist isWsB).mem h
  rw [List.mem_reverse] at h2
  exact (List.dropWhile_sublist isWsB).mem h2

lemma mem_collapseWs {c : Nat} {l : Str} (h : c ∈ collapseWs l) : c ∈ l ∨ c = 32 := by
  unfold collapseWs at h
  rcases mem_unwords h with ⟨w, hw, hc⟩ | h32
  · exact Or.inl (mem_of_mem_words hw hc)
  · exact Or.inr h32

lemma mem_stripSuffixStep {c : Nat} {l suf : Str} (h : c ∈ stripSuffixStep l suf) :
    c ∈ l := by
  unfold stripSuffixStep at h
  split at h
  · exact List.take_subset _ _ (mem_stripWs h)
  · exact h

lemma mem_sfxFold {c : Nat} {sufs : List Str} {l : Str}
    (h : c ∈ sufs.foldl stripSuffixStep l) : c ∈ l := by
  induction sufs generalizing l with
  | nil => exact h
  | cons s ss ih =>
    simp only [List.foldl] at h
    exact mem_stripSuffixStep (ih h)

lemma mem_normalize_core {c : Nat} {x : Str} (h : c ∈ normalize_core x) :
    (∃ d ∈ x, c = upC d) ∨ c = 32 := by
  unfold normalize_core at h
  have h1 := mem_sfxFold h
  have h2 := List.mem_of_mem_filter (List.mem_of_mem_filter (List.mem_of_mem_filter h1))
  rcases mem_collapseWs h2 with h3 | h32
  · have h4 := mem_stripWs h3
    obtain ⟨d, hd, hdc⟩ := List.mem_map.mp h4
    exact Or.inl ⟨d, hd, hdc.symm⟩
  · exact Or.inr h32

lemma upC_idem (c : Nat) : upC (upC c) = upC c := by
  by_cases h : 97 ≤ c ∧ c ≤ 122
  · have h1 : upC c = c - 32 := if_pos h
    rw [h1]
    unfold upC
    rw [if_neg (by omega)]
  · have h1 : upC c = c := if_neg h
    rw [h1]
    unfold upC
    rw [if_neg h]

lemma eq_of_upC_low {d e : Nat} (he : e < 65) (h : upC d = e) : d = e := by
  unfold upC at h
  split at h <;> omega

lemma upS_noop {l : Str} (h : ∀ c ∈ l, upC c = c) : upS l = l := by
  unfold upS
  induction l with
  | nil => rfl
  | cons a l' ih =>
    simp only [List.map_cons]
    rw [h a (List.mem_cons_self _ _), ih (fun c hc => h c (List.mem_cons_of_mem _ hc))]

lemma removeChar_noop {a : Nat} {l : Str} (h : ∀ d ∈ l, d ≠ a) : removeChar a l = l := by
  unfold removeChar
  apply List.filter_eq_self.mpr
  intro d hd
  simpa using h d hd

lemma sfxFold_noop {sufs : List Str} {l : Str}
    (h : ∀ suf ∈ sufs, isSuffixB suf l = false) : sufs.foldl stripSuffixStep l = l := by
  induction sufs with
  | nil => rfl
  | cons s ss ih =>
    simp only [List.foldl]
    have hs : stripSuffixStep l s = l := by
      unfold stripSuffixStep
      rw [h s (List.mem_cons_self _ _)]
      simp
    rw [hs]
    exact ih (fun u hu => h u (List.mem_cons_of_mem _ hu))

/-- C4 counterexample: normalize_athlete_name is not idempotent.  A name
with a stacked generational suffix, A Jr Jr, normalizes to A JR, which a
second pass shortens again to A; the suffix list is walked only once per
call.  Punctuation also breaks idempotence: . A normalizes to the
string built of a space and A, because periods are removed after
whitespace has been collapsed, and a second pass then strips the fresh
leading space. -/
theorem C4_idempotence_counterexample :
    normalize_athlete_name (normalize_athlete_name (some (enc "A Jr Jr")))
      ≠ normalize_athlete_name (some (enc "A Jr Jr")) ∧
    normalize_athlete_name (normalize_athlete_name (some (enc ". A")))
      ≠ normalize_athlete_name (some (enc ". A")) := by decide

/-- C4 (amended): normalize_athlete_name is idempotent on every input
that is free of periods, commas and apostrophes and whose normal form
does not itself end in one of the generational suffixes.  On such
inputs the first pass yields a canonical string: uppercase-fixed,
space-collapsed, punctuation-free, so every stage of the second pass is
the identity. -/
theorem C4_normalize_idempotent_amended (x : Str)
    (hp : ∀ c ∈ x, c ≠ 46 ∧ c ≠ 44 ∧ c ≠ 39)
    (hs : ∀ suf ∈ suffixes_to_remove, isSuffixB suf (normalize_core x) = false) :
    normalize_athlete_name (normalize_athlete_name (some x))
      = normalize_athlete_name (some x) := by
  simp only [normalize_athlete_name]
  have hz : Canon (collapseWs (stripWs (upS x))) := canon_collapseWs _
  have hmem : ∀ c ∈ collapseWs (stripWs (upS x)), (∃ a ∈ x, c = upC a) ∨ c = 32 := by
    intro c hc
    rcases mem_collapseWs hc with h1 | h1
    · obtain ⟨a, ha, hac⟩ := List.mem_map.mp (mem_stripWs h1)
      exact Or.inl ⟨a, ha, hac.symm⟩
    · exact Or.inr h1
  have hr46 : removeChar 46 (collapseWs (stripWs (upS x))) = collapseWs (stripWs (upS x)) := by
    apply removeChar_noop
    intro d hd
    rcases hmem d hd with ⟨a, ha, rfl⟩ | rfl
    · intro hde
      exact (hp a ha).1 (eq_of_upC_low (by omega) hde)
    · decide
  have hr44 : removeChar 44 (collapseWs (stripWs (upS x))) = collapseWs (stripWs (upS x)) := by
    apply removeChar_noop
    intro d hd
    rcases hmem d hd with ⟨a, ha, rfl⟩ | rfl
    · intro hde
      exact (hp a ha).2.1 (eq_of_upC_low (by omega) hde)
    · decide
  have hr39 : removeChar 39 (collapseWs (stripWs (upS x))) = collapseWs (stripWs (upS x)) := by
    apply removeChar_noop
    intro d hd
    rcases hmem d hd with ⟨a, ha, rfl⟩ | rfl
    · intro hde
      exact (hp a ha).2.2 (eq_of_upC_low (by omega) hde)
    · decide
  have hy : normalize_core x
      = suffixes_to_remove.foldl stripSuffixStep (collapseWs (stripWs (upS x))) := by
    unfold normalize_core
    rw [hr46, hr44, hr39]
  have hyc : Canon (normalize_core x) := by rw [hy]; exact canon_sfxFold hz
  have hymem : ∀ c ∈ normalize_core x, (∃ a ∈ x, c = upC a) ∨ c = 32 := by
    intro c hc
    rw [hy] at hc
    exact hmem c (mem_sfxFold hc)
  have hup : upS (normalize_core x) = normalize_core x := by
    apply upS_noop
    intro c hc
    rcases hymem c hc with ⟨a, ha, rfl⟩ | rfl
    · exact upC_idem a
    · decide
  have hq46 : removeChar 46 (normalize_core x) = normalize_core x := by
    apply removeChar_noop
    intro d hd
    rcases hymem d hd with ⟨a, ha, rfl⟩ | rfl
    · intro hde
      exact (hp a ha).1 (eq_of_upC_low (by omega) hde)
    · decide
  have hq44 : removeChar 44 (normalize_core x) = normalize_core x := by
    apply removeChar_noop
    intro d hd
    rcases hymem d hd with ⟨a, ha, rfl⟩ | rfl
    · intro hde
      exact (hp a ha).2.1 (eq_of_upC_low (by omega) hde)
    · decide
  have hq39 : removeChar 39 (normalize_core x) = normalize_core x := by
    apply removeChar_noop
    intro d hd
    rcases hymem d hd with ⟨a, ha, rfl⟩ | rfl
    · intro hde
      exact (hp a ha).2.2 (eq_of_upC_low (by omega) hde)
    · decide
  have hfinal : normalize_core (normalize_core x) = normalize_core x := by
    conv_lhs => rw [normalize_core]
    rw [hup, stripWs_of_canon hyc, collapseWs_of_canon hyc, hq46, hq44, hq39]
    exact sfxFold_noop hs
  exact congrArg some hfinal

/-- C4 witness: John Smith Jr is punctuation-free and its normal form
JOHN SMITH ends in no generational suffix, so a second normalization
pass leaves it unchanged. -/
theorem C4_normalize_idempotent_amended_witness :
    normalize_athlete_name (normalize_athlete_name (some (enc "John Smith Jr")))
      = normalize_athlete_name (some (enc "John Smith Jr")) :=
  C4_normalize_idempotent_amended (enc "John Smith Jr") (by decide) (by decide)
